import Mathlib

/-!
# SmartShop storefront: the client-side cart

A shallow embedding of the cart code of the SmartShop React client:

* `ProductDetailsPage.handleAddToCart` and `ProductListPage.handleAddToCart`
  (read the `cart` slot of `localStorage`, merge or push, write it back);
* `CartPage.loadCart`, `CartPage.updateQuantity`, `CartPage.removeItem`,
  `CartPage.clearCart` (React state `cartItems` plus the same slot);
* `CartPage.calculateTotal` and `PaymentPage.calculateTotal` (sum, then `toFixed(2)`);
* `Header.updateCartCount`, and the mount effect, `handlePayment` and its
  timeout callback of `PaymentPage`;
* the quantity selector of `ProductDetailsPage` and `filteredProducts` of
  `ProductListPage`;
* the reducers of `cartSlice`, `orderSlice` and `productSlice`;
* `getBotResponse`, `handleSendMessage` and `handleQuickReply` of `Chatbot`.

JavaScript numbers are modelled exactly: quantities as `Int`, prices and sums
as `ℚ`; the rounding of binary floating point arithmetic is outside the model.
Identifiers are JSON numbers or strings, compared with `===`.
The text kept in the slot is modelled by the value `JSON.parse` makes of it;
a stored array is taken to hold well-formed line items.
A write to the storage may be refused (`LocalStorage.writable`), in which case
`setItem` raises and the handler that called it stops there.
The `cartUpdated` event and the `alert` calls carry no cart data and are not modelled.
Text is a sequence of characters; `toLowerCase` of the platform is a parameter
of the functions that call it, and `includes` is the search for a contiguous run.
-/

namespace SmartShop

/-! ## Data model -/

/-- An identifier as it comes out of JSON: a number or a string.
Structural equality on `Key` is the strict equality `===` of the source. -/
inductive Key where
  | num (n : Int)
  | str (s : String)
  deriving DecidableEq, Repr

/-- A product record as returned by the product API (the fields the cart code reads). -/
structure Product where
  id : Key
  name : String
  price : ℚ
  imageUrl : Option String
  stockQuantity : Int
  deriving DecidableEq, Repr

/-- One entry of the cart array, with the six keys written by `handleAddToCart`. -/
structure LineItem where
  id : Key
  name : String
  price : ℚ
  imageUrl : Option String
  quantity : Int
  stockQuantity : Int
  deriving DecidableEq, Repr

/-- The cart: a JavaScript array of line items. -/
abbrev Cart := List LineItem

/-! ## The durable slot -/

/-- What the text stored under the key `cart` parses to. -/
inductive SlotText where
  /-- The JSON text of an array of line items (what `JSON.stringify(cart)` writes). -/
  | items (cart : Cart)
  /-- JSON text of a falsy value: `null`, `false`, `0` or `""`. -/
  | falsy
  /-- JSON text of a truthy value that is not an array: an object, `true`,
  a non-zero number or a non-empty string. The flag tells whether the value is
  an object whose `length` property is the number `0`, the one such value that
  passes a test `cart.length === 0`. -/
  | truthy (lengthZero : Bool)
  /-- Text that `JSON.parse` rejects. -/
  | malformed
  deriving DecidableEq, Repr

/-- The exceptions the cart code can meet. -/
inductive JsError where
  /-- Raised by `JSON.parse` on malformed text. -/
  | syntaxError
  /-- Raised by calling an array method on a value that has none. -/
  | typeError
  /-- Raised by `localStorage.setItem` when the storage refuses the write. -/
  | quotaExceeded
  deriving DecidableEq, Repr

/-- The browser storage as far as the cart is concerned: the `cart` slot
(`none` when the key is absent) and whether `setItem` currently succeeds. -/
structure LocalStorage where
  cart : Option SlotText
  writable : Bool
  deriving DecidableEq, Repr

/-- The value of the expression `JSON.parse(localStorage.getItem('cart')) || []`. -/
inductive JsValue where
  | array (cart : Cart)
  /-- A truthy value without array methods; `lengthZero` as in `SlotText.truthy`. -/
  | nonArray (lengthZero : Bool)
  deriving DecidableEq, Repr

/-- Evaluate `JSON.parse(localStorage.getItem('cart')) || []`.
An absent key gives `null`, which parses to `null`, which is falsy. -/
def LocalStorage.parseCart (localStorage : LocalStorage) : Except JsError JsValue :=
  match localStorage.cart with
  | none => .ok (.array [])
  | some (.items cart) => .ok (.array cart)
  | some .falsy => .ok (.array [])
  | some (.truthy lengthZero) => .ok (.nonArray lengthZero)
  | some .malformed => .error .syntaxError

/-- Model of `localStorage.setItem('cart', JSON.stringify(cart))`. -/
def LocalStorage.setItem (localStorage : LocalStorage) (cart : Cart) :
    Except JsError LocalStorage :=
  if localStorage.writable then
    .ok { localStorage with cart := some (.items cart) }
  else
    .error .quotaExceeded

/-- Model of `localStorage.removeItem('cart')`; it never raises. -/
def LocalStorage.removeItem (localStorage : LocalStorage) : LocalStorage :=
  { localStorage with cart := none }

/-! ## Array helpers -/

/-- JavaScript `Array.prototype.findIndex`: the index of the first element
satisfying `p`, or `-1`. -/
def findIndex (p : LineItem → Bool) : Cart → Int
  | [] => -1
  | item :: rest =>
    if p item then 0
    else
      let r := findIndex p rest
      if r > -1 then r + 1 else -1

/-- The in-place update `cart[index].quantity += quantity`. -/
def increaseQuantityAt (cart : Cart) (index : Nat) (quantity : Int) : Cart :=
  match cart[index]? with
  | some item => cart.set index { item with quantity := item.quantity + quantity }
  | none => cart

/-! ## Adding to the cart -/

/-- The array computed by `handleAddToCart` between reading and writing the slot:
lines 36-51 of `ProductDetailsPage.jsx`. -/
def mergeIntoCart (product : Product) (quantity : Int) (existingCart : Cart) : Cart :=
  let existingItemIndex := findIndex (fun item => item.id == product.id) existingCart
  if existingItemIndex > -1 then
    increaseQuantityAt existingCart existingItemIndex.toNat quantity
  else
    existingCart ++ [{ id := product.id
                       name := product.name
                       price := product.price
                       imageUrl := product.imageUrl
                       quantity := quantity
                       stockQuantity := product.stockQuantity }]

namespace ProductDetailsPage

/-- The handler `handleAddToCart` of `ProductDetailsPage.jsx`, for the page state
`product` and `quantity`. It returns the storage after the handler, or the
exception that left the storage as it was. -/
def handleAddToCart (product : Product) (quantity : Int) (localStorage : LocalStorage) :
    Except JsError LocalStorage :=
  match localStorage.parseCart with
  | .error e => .error e
  | .ok (.nonArray _) => .error .typeError
  | .ok (.array existingCart) =>
    localStorage.setItem (mergeIntoCart product quantity existingCart)

end ProductDetailsPage

namespace ProductListPage

/-- The handler `handleAddToCart` of `ProductListPage.jsx`: same code with the
literal quantity `1`. -/
def handleAddToCart (product : Product) (localStorage : LocalStorage) :
    Except JsError LocalStorage :=
  match localStorage.parseCart with
  | .error e => .error e
  | .ok (.nonArray _) => .error .typeError
  | .ok (.array existingCart) =>
    let existingItemIndex := findIndex (fun item => item.id == product.id) existingCart
    let updated :=
      if existingItemIndex > -1 then
        increaseQuantityAt existingCart existingItemIndex.toNat 1
      else
        existingCart ++ [{ id := product.id
                           name := product.name
                           price := product.price
                           imageUrl := product.imageUrl
                           quantity := 1
                           stockQuantity := product.stockQuantity }]
    localStorage.setItem updated

end ProductListPage

/-! ## The cart page -/

/-- The state the `CartPage` handlers act on: the React state `cartItems`
and the browser storage. -/
structure CartPage where
  cartItems : Cart
  localStorage : LocalStorage
  deriving DecidableEq, Repr

/-- What a `CartPage` handler leaves behind: the page state, and the exception
it raised to its caller, if any. -/
structure Outcome where
  page : CartPage
  raised : Option JsError
  deriving DecidableEq, Repr

namespace CartPage

/-- The function `loadCart`: `setCartItems(JSON.parse(localStorage.getItem('cart')) || [])`.
A truthy non-array value is stored as it is. The render that follows tests
`cartItems.length === 0` and otherwise calls `cartItems.map`: an object of
`length` 0 shows the empty cart, any other such value raises a `TypeError`, which
is reported here with the state left as it was. -/
def loadCart (page : CartPage) : Outcome :=
  match page.localStorage.parseCart with
  | .error e => { page := page, raised := some e }
  | .ok (.nonArray lengthZero) =>
    if lengthZero then { page := { page with cartItems := [] }, raised := none }
    else { page := page, raised := some .typeError }
  | .ok (.array cart) => { page := { page with cartItems := cart }, raised := none }

/-- The handler `updateQuantity(productId, newQuantity)`. `setCartItems` comes before
`setItem`, so the React state is updated even when the write raises. -/
def updateQuantity (productId : Key) (newQuantity : Int) (page : CartPage) : Outcome :=
  if newQuantity < 1 then { page := page, raised := none }
  else
    let updatedCart := page.cartItems.map (fun item =>
      if item.id == productId then { item with quantity := newQuantity } else item)
    match page.localStorage.setItem updatedCart with
    | .ok stored => { page := { cartItems := updatedCart, localStorage := stored }, raised := none }
    | .error e => { page := { page with cartItems := updatedCart }, raised := some e }

/-- The handler `removeItem(productId)`, which has no guard. -/
def removeItem (productId : Key) (page : CartPage) : Outcome :=
  let updatedCart := page.cartItems.filter (fun item => item.id != productId)
  match page.localStorage.setItem updatedCart with
  | .ok stored => { page := { cartItems := updatedCart, localStorage := stored }, raised := none }
  | .error e => { page := { page with cartItems := updatedCart }, raised := some e }

/-- The handler `clearCart()`: empty React state, slot removed. -/
def clearCart (page : CartPage) : Outcome :=
  { page := { cartItems := [], localStorage := page.localStorage.removeItem }, raised := none }

end CartPage

/-! ## Sessions -/

/-- The cart operations a user can trigger, and mounting the cart page. -/
inductive CartOp where
  /-- The handler `ProductDetailsPage.handleAddToCart` with the page state `product`, `quantity`. -/
  | add (product : Product) (quantity : Int)
  /-- The handler `ProductListPage.handleAddToCart(product)`. -/
  | addOne (product : Product)
  /-- Mounting `CartPage`, whose effect runs `loadCart`. -/
  | load
  /-- The handler `CartPage.updateQuantity(productId, newQuantity)`. -/
  | updateQuantity (productId : Key) (newQuantity : Int)
  /-- The handler `CartPage.removeItem(productId)`. -/
  | remove (productId : Key)
  /-- The handler `CartPage.clearCart()`. -/
  | clear
  deriving DecidableEq, Repr

/-- One operation on the session state. The add handlers only touch the storage;
when they raise, nothing was written. -/
def step (op : CartOp) (s : CartPage) : CartPage :=
  match op with
  | .add product quantity =>
    match ProductDetailsPage.handleAddToCart product quantity s.localStorage with
    | .ok stored => { s with localStorage := stored }
    | .error _ => s
  | .addOne product =>
    match ProductListPage.handleAddToCart product s.localStorage with
    | .ok stored => { s with localStorage := stored }
    | .error _ => s
  | .load => (CartPage.loadCart s).page
  | .updateQuantity productId newQuantity => (CartPage.updateQuantity productId newQuantity s).page
  | .remove productId => (CartPage.removeItem productId s).page
  | .clear => (CartPage.clearCart s).page

/-- Run a sequence of operations, first to last. -/
def run (ops : List CartOp) (s : CartPage) : CartPage :=
  ops.foldl (fun acc op => step op acc) s

/-- The session before anything was added: no slot, empty React state. -/
def emptySession (writable : Bool) : CartPage :=
  { cartItems := [], localStorage := { cart := none, writable := writable } }

/-- The cart a reader gets from the storage, when the slot reads as an array. -/
def storedCart (localStorage : LocalStorage) : Option Cart :=
  match localStorage.parseCart with
  | .ok (.array cart) => some cart
  | _ => none

/-- The number of line items of `cart` whose id is `id`. -/
def countId (id : Key) (cart : Cart) : Nat :=
  (cart.filter (fun item => item.id == id)).length

/-- At most one line item per id. -/
def UniqueIds (cart : Cart) : Prop :=
  ∀ id : Key, countId id cart ≤ 1

/-- The line item `handleAddToCart` pushes for a product not yet in the cart. -/
def newLineItem (product : Product) (quantity : Int) : LineItem :=
  { id := product.id
    name := product.name
    price := product.price
    imageUrl := product.imageUrl
    quantity := quantity
    stockQuantity := product.stockQuantity }

/-- The invariant of a session: the slot reads as a cart with unique ids, and
the React state of the cart page has unique ids. -/
def SessionInv (s : CartPage) : Prop :=
  (∃ cart, storedCart s.localStorage = some cart ∧ UniqueIds cart) ∧ UniqueIds s.cartItems

/-! ## Totals and counts -/

/-- The result of `Number.prototype.toFixed(2)`. -/
inductive FixedText where
  /-- Digits, a point and two digits, with a leading `-` for a negative number. -/
  | decimal (text : String)
  /-- The exponent form used for magnitudes of `10^21` and more; its digits are
  not modelled. -/
  | exponent
  deriving DecidableEq, Repr

/-- The integer `n` of `toFixed(2)` for `x ≥ 0`: `n / 100 - x` is as close to
zero as possible, and of two such `n` the larger is taken. -/
def nearestHundredth (x : ℚ) : Nat :=
  ⌊x * 100 + 1 / 2⌋.toNat

/-- The last two digits of the text of `toFixed(2)`, zero padded. -/
def twoDigits (n : Nat) : String :=
  if n < 10 then "0" ++ Nat.repr n else Nat.repr n

/-- Model of `x.toFixed(2)` on an exact number: sign, then the integer
`nearestHundredth` of the magnitude written with a point before its last two
digits. -/
def toFixed2 (x : ℚ) : FixedText :=
  let s := if x < 0 then "-" else ""
  let x := if x < 0 then -x else x
  if x ≥ 10 ^ 21 then .exponent
  else
    let n := nearestHundredth x
    .decimal (s ++ Nat.repr (n / 100) ++ "." ++ twoDigits (n % 100))

/-- The function `calculateTotal` of `CartPage.jsx`:
`cartItems.reduce((total, item) => total + (item.price * item.quantity), 0).toFixed(2)`. -/
def CartPage.calculateTotal (cartItems : Cart) : FixedText :=
  toFixed2 (cartItems.foldl (fun total item => total + item.price * (item.quantity : ℚ)) 0)

/-- The state the `PaymentPage` code acts on: the React state `cartItems` and
`processing`, the route last passed to `navigate`, the number of payment
timeouts scheduled and not yet run, and the browser storage. -/
structure PaymentPage where
  cartItems : Cart
  processing : Bool
  navigatedTo : Option String
  pendingTimeouts : Nat
  localStorage : LocalStorage
  deriving DecidableEq, Repr

namespace PaymentPage

/-- The function `calculateTotal` of `PaymentPage.jsx`, the same expression as in
`CartPage.jsx`. -/
def calculateTotal (cartItems : Cart) : FixedText :=
  toFixed2 (cartItems.foldl (fun total item => total + item.price * (item.quantity : ℚ)) 0)

/-- The mount effect of `PaymentPage`: read the cart, `navigate('/cart')` when its
`length` is 0, then `setCartItems(cart)`. A truthy non-array value of another
`length` makes the render that follows raise in `cartItems.reduce`. -/
def mount (page : PaymentPage) : PaymentPage × Option JsError :=
  match page.localStorage.parseCart with
  | .error e => (page, some e)
  | .ok (.nonArray lengthZero) =>
    if lengthZero then ({ page with navigatedTo := some "/cart" }, none)
    else (page, some .typeError)
  | .ok (.array cart) =>
    if cart.length = 0 then
      ({ page with navigatedTo := some "/cart", cartItems := cart }, none)
    else
      ({ page with cartItems := cart }, none)

/-- The handler `handlePayment`: `setProcessing(true)` and a timeout of two
seconds is scheduled. -/
def handlePayment (page : PaymentPage) : PaymentPage :=
  { page with processing := true, pendingTimeouts := page.pendingTimeouts + 1 }

/-- The callback passed to `setTimeout` by `handlePayment`, run on the state the
page has when the timeout expires: the slot is removed, the page navigates to
`/products` and `processing` is reset. -/
def paymentTimeout (page : PaymentPage) : PaymentPage :=
  { page with
    localStorage := page.localStorage.removeItem
    navigatedTo := some "/products"
    processing := false
    pendingTimeouts := page.pendingTimeouts - 1 }

end PaymentPage

namespace Header

/-- The function `updateCartCount` of `Header.jsx`: the value it passes to
`setCartCount`, `cart.reduce((sum, item) => sum + item.quantity, 0)`, or the
exception raised on the way. -/
def updateCartCount (localStorage : LocalStorage) : Except JsError Int :=
  match localStorage.parseCart with
  | .error e => .error e
  | .ok (.nonArray _) => .error .typeError
  | .ok (.array cart) => .ok (cart.foldl (fun sum item => sum + item.quantity) 0)

end Header

/-- The exact sum of `price × quantity` over the items of a cart. -/
def cartSum (cart : Cart) : ℚ :=
  (cart.map (fun item => item.price * (item.quantity : ℚ))).sum

/-- The sum of the line amounts `price × quantity` after rounding each of them
to the nearest hundredth: what a total built from rounded lines would be. -/
def lineRoundedSum (cart : Cart) : ℚ :=
  (cart.map (fun item =>
    (nearestHundredth (item.price * (item.quantity : ℚ)) : ℚ) / 100)).sum

/-- Every item of the cart has quantity at least 1. -/
def QuantitiesPositive (cart : Cart) : Prop :=
  ∀ item ∈ cart, 1 ≤ item.quantity

/-- The invariant of a session for quantities: the slot reads as a cart whose
quantities are at least 1, and so are those of the React state. -/
def QuantityInv (s : CartPage) : Prop :=
  (∃ cart, storedCart s.localStorage = some cart ∧ QuantitiesPositive cart) ∧
    QuantitiesPositive s.cartItems

/-! ## The quantity selector -/

/-- The two buttons of the quantity selector of `ProductDetailsPage`. -/
inductive SelectorClick where
  | minus
  | plus
  deriving DecidableEq, Repr

/-- One click on the selector: `setQuantity(Math.max(1, quantity - 1))` for `-`,
`setQuantity(Math.min(product.stockQuantity, quantity + 1))` for `+`. -/
def ProductDetailsPage.selectorStep (stockQuantity : Int) (quantity : Int) :
    SelectorClick → Int
  | .minus => max 1 (quantity - 1)
  | .plus => min stockQuantity (quantity + 1)

/-- The selector value after a sequence of clicks, from `useState(1)`. -/
def ProductDetailsPage.selectorRun (stockQuantity : Int) (clicks : List SelectorClick) : Int :=
  clicks.foldl (ProductDetailsPage.selectorStep stockQuantity) 1

/-! ## Strings -/

/-- Whether the characters `t` stand at the start of `s`. -/
def startsWithChars : List Char → List Char → Bool
  | _, [] => true
  | [], _ :: _ => false
  | c :: s, d :: t => c == d && startsWithChars s t

/-- Whether the characters `t` occur in `s` as a contiguous run. -/
def includesChars : List Char → List Char → Bool
  | [], t => startsWithChars [] t
  | c :: s, t => startsWithChars (c :: s) t || includesChars s t

/-- Model of `s.includes(t)` of JavaScript, on well-formed text. -/
def includes (s t : String) : Bool :=
  includesChars s.data t.data

/-- The substring relation: `t` occurs in `s` between some `before` and `after`. -/
def Contains (s t : String) : Prop :=
  ∃ before after : List Char, s.data = before ++ t.data ++ after

/-- Lower-casing of one character among `A` to `Z`; any other character is kept. -/
def asciiLowerChar (c : Char) : Char :=
  if 65 ≤ c.toNat ∧ c.toNat ≤ 90 then Char.ofNat (c.toNat + 32) else c

/-- Lower-casing of the letters `A` to `Z` only: what `toLowerCase` of JavaScript
does on text whose cased letters are all ASCII. -/
def asciiLowerCase (s : String) : String :=
  ⟨s.data.map asciiLowerChar⟩

/-- The white space and line terminator characters that `trim` of JavaScript removes. -/
def isJsWhiteSpace (c : Char) : Bool :=
  let n := c.toNat
  n == 0x9 || n == 0xA || n == 0xB || n == 0xC || n == 0xD || n == 0x20 || n == 0xA0 ||
    n == 0x1680 || (0x2000 ≤ n && n ≤ 0x200A) || n == 0x2028 || n == 0x2029 ||
    n == 0x202F || n == 0x205F || n == 0x3000 || n == 0xFEFF

/-- The test `s.trim() === ''`: the text is empty or white space only. -/
def trimIsEmpty (s : String) : Bool :=
  s.data.all isJsWhiteSpace

/-! ## The product list filter -/

/-- A product as listed by `ProductListPage`: the fields of `Product` and the two
further fields the filter reads, either of which may be missing. -/
structure ListedProduct extends Product where
  description : Option String
  category : Option String
  deriving DecidableEq, Repr

namespace ProductListPage

/-- The constant `searchTerm`: `searchParams.get('search') || ''`. -/
def searchTerm (param : Option String) : String :=
  match param with
  | some value => if value = "" then "" else value
  | none => ""

/-- The constant `selectedCategory`: `searchParams.get('category') || 'All'`. -/
def selectedCategory (param : Option String) : String :=
  match param with
  | some value => if value = "" then "All" else value
  | none => "All"

/-- The constant `filteredProducts` of `ProductListPage.jsx`, with `toLowerCase`
of the platform as a parameter. A missing description makes
`product.description?.toLowerCase().includes(...)` undefined, which counts as false. -/
def filteredProducts (toLowerCase : String → String) (products : List ListedProduct)
    (searchTerm selectedCategory : String) : List ListedProduct :=
  products.filter (fun product =>
    let matchesSearch :=
      includes (toLowerCase product.name) (toLowerCase searchTerm) ||
        (match product.description with
          | some description => includes (toLowerCase description) (toLowerCase searchTerm)
          | none => false)
    let matchesCategory :=
      selectedCategory == "All" || product.category == some selectedCategory
    matchesSearch && matchesCategory)

end ProductListPage

/-! ## Redux slices -/

/-- The state of `cartSlice`. -/
structure CartSliceState where
  items : List LineItem
  totalAmount : ℚ
  loading : Bool
  error : Option String
  deriving DecidableEq, Repr

/-- The payload of the fulfilled cart thunks: a cart document whose `items` and
`totalAmount` may be missing. -/
structure CartPayload where
  items : Option (List LineItem)
  totalAmount : Option ℚ
  deriving DecidableEq, Repr

namespace cartSlice

/-- The value `initialState` of `cartSlice.js`. -/
def initialState : CartSliceState :=
  { items := [], totalAmount := 0, loading := false, error := none }

/-- The expression `action.payload.items || []`. -/
def itemsOf (payload : CartPayload) : List LineItem :=
  match payload.items with
  | some items => items
  | none => []

/-- The expression `action.payload.totalAmount || 0`. -/
def totalAmountOf (payload : CartPayload) : ℚ :=
  match payload.totalAmount with
  | some total => if total = 0 then 0 else total
  | none => 0

/-- The reducer `clearCart`. -/
def clearCart (state : CartSliceState) : CartSliceState :=
  { state with items := [], totalAmount := 0 }

/-- The case `fetchCart.pending`. -/
def fetchCartPending (state : CartSliceState) : CartSliceState :=
  { state with loading := true, error := none }

/-- The case `fetchCart.fulfilled`. -/
def fetchCartFulfilled (state : CartSliceState) (payload : CartPayload) : CartSliceState :=
  { state with loading := false, items := itemsOf payload, totalAmount := totalAmountOf payload }

/-- The case `fetchCart.rejected`. -/
def fetchCartRejected (state : CartSliceState) (payload : Option String) : CartSliceState :=
  { state with loading := false, error := payload }

/-- The case `addToCart.fulfilled`. -/
def addToCartFulfilled (state : CartSliceState) (payload : CartPayload) : CartSliceState :=
  { state with items := itemsOf payload, totalAmount := totalAmountOf payload }

/-- The case `updateCartItem.fulfilled`. -/
def updateCartItemFulfilled (state : CartSliceState) (payload : CartPayload) :
    CartSliceState :=
  { state with items := itemsOf payload, totalAmount := totalAmountOf payload }

/-- The case `removeFromCart.fulfilled`, whose payload is the item id: the items
are filtered first and the total is then reduced over the filtered items. -/
def removeFromCartFulfilled (state : CartSliceState) (payload : Key) : CartSliceState :=
  let items := state.items.filter (fun item => item.id != payload)
  { state with
    items := items
    totalAmount := items.foldl (fun sum item => sum + item.price * (item.quantity : ℚ)) 0 }

end cartSlice

/-- The state of `orderSlice`, for any type of order documents. -/
structure OrderSliceState (Order : Type) where
  orders : List Order
  currentOrder : Option Order
  loading : Bool
  error : Option String
  deriving DecidableEq, Repr

namespace orderSlice

/-- The value `initialState` of `orderSlice.js`. -/
def initialState (Order : Type) : OrderSliceState Order :=
  { orders := [], currentOrder := none, loading := false, error := none }

/-- The reducer `clearCurrentOrder`. -/
def clearCurrentOrder {Order : Type} (state : OrderSliceState Order) : OrderSliceState Order :=
  { state with currentOrder := none }

/-- The case `fetchOrders.pending`. -/
def fetchOrdersPending {Order : Type} (state : OrderSliceState Order) : OrderSliceState Order :=
  { state with loading := true, error := none }

/-- The case `fetchOrders.fulfilled`. -/
def fetchOrdersFulfilled {Order : Type} (state : OrderSliceState Order)
    (payload : List Order) : OrderSliceState Order :=
  { state with loading := false, orders := payload }

/-- The case `fetchOrders.rejected`. -/
def fetchOrdersRejected {Order : Type} (state : OrderSliceState Order)
    (payload : Option String) : OrderSliceState Order :=
  { state with loading := false, error := payload }

/-- The case `createOrder.pending`. -/
def createOrderPending {Order : Type} (state : OrderSliceState Order) : OrderSliceState Order :=
  { state with loading := true, error := none }

/-- The case `createOrder.fulfilled`: `state.orders.unshift(action.payload)`. -/
def createOrderFulfilled {Order : Type} (state : OrderSliceState Order) (payload : Order) :
    OrderSliceState Order :=
  { state with loading := false, currentOrder := some payload, orders := payload :: state.orders }

/-- The case `createOrder.rejected`. -/
def createOrderRejected {Order : Type} (state : OrderSliceState Order)
    (payload : Option String) : OrderSliceState Order :=
  { state with loading := false, error := payload }

/-- The case `fetchOrderById.pending`. -/
def fetchOrderByIdPending {Order : Type} (state : OrderSliceState Order) :
    OrderSliceState Order :=
  { state with loading := true, error := none }

/-- The case `fetchOrderById.fulfilled`. -/
def fetchOrderByIdFulfilled {Order : Type} (state : OrderSliceState Order) (payload : Order) :
    OrderSliceState Order :=
  { state with loading := false, currentOrder := some payload }

/-- The case `fetchOrderById.rejected`. -/
def fetchOrderByIdRejected {Order : Type} (state : OrderSliceState Order)
    (payload : Option String) : OrderSliceState Order :=
  { state with loading := false, error := payload }

end orderSlice

/-- The object `filters` of `productSlice`. -/
structure ProductFilters where
  category : String
  minPrice : String
  maxPrice : String
  search : String
  deriving DecidableEq, Repr

/-- The state of `productSlice`, for any type of product documents. -/
structure ProductSliceState (P : Type) where
  items : List P
  currentProduct : Option P
  loading : Bool
  error : Option String
  filters : ProductFilters
  deriving DecidableEq, Repr

namespace productSlice

/-- The case `fetchProducts.pending`. -/
def fetchProductsPending {P : Type} (state : ProductSliceState P) : ProductSliceState P :=
  { state with loading := true, error := none }

/-- The case `fetchProducts.fulfilled`. -/
def fetchProductsFulfilled {P : Type} (state : ProductSliceState P) (payload : List P) :
    ProductSliceState P :=
  { state with loading := false, items := payload }

/-- The case `fetchProducts.rejected`. -/
def fetchProductsRejected {P : Type} (state : ProductSliceState P)
    (payload : Option String) : ProductSliceState P :=
  { state with loading := false, error := payload }

/-- The case `fetchProductById.pending`. -/
def fetchProductByIdPending {P : Type} (state : ProductSliceState P) : ProductSliceState P :=
  { state with loading := true, error := none }

/-- The case `fetchProductById.fulfilled`. -/
def fetchProductByIdFulfilled {P : Type} (state : ProductSliceState P) (payload : P) :
    ProductSliceState P :=
  { state with loading := false, currentProduct := some payload }

/-- The case `fetchProductById.rejected`. -/
def fetchProductByIdRejected {P : Type} (state : ProductSliceState P)
    (payload : Option String) : ProductSliceState P :=
  { state with loading := false, error := payload }

/-- The case `searchProducts.pending`. -/
def searchProductsPending {P : Type} (state : ProductSliceState P) : ProductSliceState P :=
  { state with loading := true, error := none }

/-- The case `searchProducts.fulfilled`. -/
def searchProductsFulfilled {P : Type} (state : ProductSliceState P) (payload : List P) :
    ProductSliceState P :=
  { state with loading := false, items := payload }

/-- The case `searchProducts.rejected`. -/
def searchProductsRejected {P : Type} (state : ProductSliceState P)
    (payload : Option String) : ProductSliceState P :=
  { state with loading := false, error := payload }

end productSlice

/-- The sum of the `quantity` fields of a cart. -/
def quantitySum (cart : Cart) : Int :=
  (cart.map LineItem.quantity).sum

/-! ## The chatbot -/

/-- The sender of a chat message: `'user'` or `'bot'`. -/
inductive Sender where
  | user
  | bot
  deriving DecidableEq, Repr

/-- One chat message, an object with the keys `text` and `sender`. -/
structure ChatMessage where
  text : String
  sender : Sender
  deriving DecidableEq, Repr

/-- The state the chat handlers act on: the React state `messages` and
`inputMessage`, and for each scheduled reply timeout the value of
`inputMessage` its callback has captured, oldest first. -/
structure Chatbot where
  messages : List ChatMessage
  inputMessage : String
  pendingReplies : List String
  deriving DecidableEq, Repr

namespace Chatbot

/-- The array `quickReplies`. -/
def quickReplies : List String :=
  ["Track my order", "Shipping info", "Return policy", "Payment methods", "Contact support"]

/-- The answer of the product rule. -/
def productAnswer : String :=
  "We have a wide range of products including Electronics, Clothing, Sports items, and Accessories. You can browse all products by clicking on 'Products' in the menu. Is there something specific you're looking for?"

/-- The answer of the shipping rule. -/
def shippingAnswer : String :=
  "We offer FREE shipping on all orders! Delivery typically takes 3-5 business days. You can track your order status from the Orders page after logging in."

/-- The answer of the payment rule. -/
def paymentAnswer : String :=
  "We accept multiple payment methods: Credit/Debit Cards, UPI, and Cash on Delivery (COD). All payments are 100% secure and encrypted."

/-- The answer of the return and refund rule. -/
def returnAnswer : String :=
  "We have a 7-day return policy. If you're not satisfied with your purchase, you can return it within 7 days for a full refund. The product must be unused and in original packaging."

/-- The answer of the order tracking rule. -/
def trackingAnswer : String :=
  "To track your order, please log in to your account and go to the 'Orders' section. You'll see all your orders with their current status."

/-- The answer of the account rule. -/
def accountAnswer : String :=
  "You can create an account by clicking 'Sign Up' in the top menu. If you already have an account, click 'Login'. Having an account helps you track orders and save your preferences!"

/-- The answer of the cart rule. -/
def cartAnswer : String :=
  "You can add products to your cart without logging in! Just click 'Add to Cart' on any product. Your cart is saved in your browser, so you won't lose items even if you refresh the page."

/-- The answer of the contact rule. -/
def contactAnswer : String :=
  "You can reach our support team at:\n📧 Email: support@smartshop.com\n📞 Phone: +91-1800-123-4567\nWe're available 24/7 to help you!"

/-- The answer of the discount rule. -/
def discountAnswer : String :=
  "We regularly have special offers and discounts! Check our homepage for current deals. Sign up for our newsletter to get exclusive discount codes delivered to your email."

/-- The answer of the price rule. -/
def priceAnswer : String :=
  "All our products are competitively priced! You can see the price on each product page. We display prices in Indian Rupees (₹). Free shipping is included on all orders!"

/-- The answer of the greeting rule. -/
def greetingAnswer : String :=
  "Hello! Welcome to Smart Shop! 👋 How can I assist you today? Feel free to ask about products, shipping, payments, or anything else!"

/-- The answer of the thanks rule. -/
def thanksAnswer : String :=
  "You're welcome! Happy to help! 😊 Is there anything else you'd like to know?"

/-- The default answer. -/
def defaultAnswer : String :=
  "I'm here to help! You can ask me about:\n• Products and categories\n• Shipping and delivery\n• Payment methods\n• Returns and refunds\n• Order tracking\n• Account creation\n\nWhat would you like to know?"

/-- The function `getBotResponse` of `Chatbot.jsx`, with `toLowerCase` of the
platform as a parameter: the chain of `if` statements in source order. -/
def getBotResponse (toLowerCase : String → String) (userMessage : String) : String :=
  let message := toLowerCase userMessage
  if includes message "product" || includes message "item" || includes message "buy" then
    productAnswer
  else if includes message "ship" || includes message "deliver" then
    shippingAnswer
  else if includes message "payment" || includes message "pay" || includes message "card" ||
      includes message "upi" then
    paymentAnswer
  else if includes message "return" || includes message "refund" ||
      includes message "exchange" then
    returnAnswer
  else if includes message "track" || includes message "order status" ||
      includes message "where is my order" then
    trackingAnswer
  else if includes message "account" || includes message "login" ||
      includes message "register" || includes message "sign up" then
    accountAnswer
  else if includes message "cart" || includes message "add to cart" then
    cartAnswer
  else if includes message "contact" || includes message "support" ||
      includes message "help" || includes message "email" || includes message "phone" then
    contactAnswer
  else if includes message "discount" || includes message "offer" ||
      includes message "coupon" || includes message "sale" then
    discountAnswer
  else if includes message "price" || includes message "cost" ||
      includes message "how much" then
    priceAnswer
  else if includes message "hi" || includes message "hello" || includes message "hey" then
    greetingAnswer
  else if includes message "thank" || includes message "thanks" then
    thanksAnswer
  else
    defaultAnswer

/-- The rules of `getBotResponse` as a table, in source order: the keywords of
each rule and its answer. -/
def rules : List (List String × String) :=
  [(["product", "item", "buy"], productAnswer),
   (["ship", "deliver"], shippingAnswer),
   (["payment", "pay", "card", "upi"], paymentAnswer),
   (["return", "refund", "exchange"], returnAnswer),
   (["track", "order status", "where is my order"], trackingAnswer),
   (["account", "login", "register", "sign up"], accountAnswer),
   (["cart", "add to cart"], cartAnswer),
   (["contact", "support", "help", "email", "phone"], contactAnswer),
   (["discount", "offer", "coupon", "sale"], discountAnswer),
   (["price", "cost", "how much"], priceAnswer),
   (["hi", "hello", "hey"], greetingAnswer),
   (["thank", "thanks"], thanksAnswer)]

/-- The answer of the first rule of a table one of whose keywords occurs in
`message`, or `fallback` when no rule has one. -/
def firstMatch (table : List (List String × String)) (fallback message : String) : String :=
  match table with
  | [] => fallback
  | (keywords, answer) :: rest =>
    if keywords.any (fun keyword => includes message keyword) then answer
    else firstMatch rest fallback message

/-- The handler `handleSendMessage`, as the closure of a render in which
`inputMessage` had the value `captured`, run on the state `chat`: nothing for
blank text; otherwise the user message is appended, a reply timeout that has
captured the same text is scheduled, and `inputMessage` is cleared. -/
def handleSendMessage (captured : String) (chat : Chatbot) : Chatbot :=
  if trimIsEmpty captured then chat
  else
    { messages := chat.messages ++ [{ text := captured, sender := .user }]
      pendingReplies := chat.pendingReplies ++ [captured]
      inputMessage := "" }

/-- The handler `handleQuickReply(reply)` of the same render:
`setInputMessage(reply)` and then `handleSendMessage()`, which still sees the
captured `inputMessage`. -/
def handleQuickReply (captured : String) (reply : String) (chat : Chatbot) : Chatbot :=
  handleSendMessage captured { chat with inputMessage := reply }

/-- The callback of the oldest reply timeout: the bot message for the text it
captured is appended. -/
def replyTimeout (toLowerCase : String → String) (chat : Chatbot) : Chatbot :=
  match chat.pendingReplies with
  | [] => chat
  | captured :: rest =>
    { chat with
      messages := chat.messages ++ [{ text := getBotResponse toLowerCase captured, sender := .bot }]
      pendingReplies := rest }

end Chatbot

/-! ## Sample data -/

/-- The first product of the end-to-end scenario of the specification. -/
def shoe : Product :=
  { id := .str "p1", name := "Shoe", price := 1200, imageUrl := none, stockQuantity := 5 }

/-- The second product of the scenario. -/
def sock : Product :=
  { id := .str "p2", name := "Sock", price := 300, imageUrl := some "sock.png",
    stockQuantity := 9 }

/-- The product `shoe` as the catalogue returns it later: same id, new name and price. -/
def shoeRepriced : Product :=
  { id := .str "p1", name := "Shoe (sale)", price := 999, imageUrl := some "shoe.png",
    stockQuantity := 4 }

/-- A cart holding two socks. -/
def sockCart : Cart :=
  [{ id := .str "p2", name := "Sock", price := 300, imageUrl := some "sock.png",
     quantity := 2, stockQuantity := 9 }]

/-- A cart holding one shoe, then two socks. -/
def shoeSockCart : Cart :=
  [{ id := .str "p1", name := "Shoe", price := 1200, imageUrl := none,
     quantity := 1, stockQuantity := 5 },
   { id := .str "p2", name := "Sock", price := 300, imageUrl := some "sock.png",
     quantity := 2, stockQuantity := 9 }]

/-- A storage that accepts writes and holds `cart` in its slot. -/
def storageWith (cart : Cart) : LocalStorage :=
  { cart := some (.items cart), writable := true }

/-- The example cart of the total property: 2 at 100 and 1 at 49.5. -/
def exampleTotalCart : Cart :=
  [{ id := .num 1, name := "A", price := 100, imageUrl := none, quantity := 2,
     stockQuantity := 10 },
   { id := .num 2, name := "B", price := 49.5, imageUrl := none, quantity := 1,
     stockQuantity := 10 }]

/-- A cart of one item priced 0.125, a number that is exact in binary as well. -/
def eighthCart : Cart :=
  [{ id := .num 1, name := "A", price := 0.125, imageUrl := none, quantity := 1,
     stockQuantity := 10 }]

/-- A cart of two items priced 0.125 each. -/
def twoEighthsCart : Cart :=
  [{ id := .num 1, name := "A", price := 0.125, imageUrl := none, quantity := 1,
     stockQuantity := 10 },
   { id := .num 2, name := "B", price := 0.125, imageUrl := none, quantity := 1,
     stockQuantity := 10 }]

/-- A storage that refuses writes and holds `cart` in its slot. -/
def fullStorageWith (cart : Cart) : LocalStorage :=
  { cart := some (.items cart), writable := false }

/-- A chat in which the user has typed `hello` and nothing is pending. -/
def typedHello : Chatbot :=
  { messages := [{ text := "Hi! I'm Smart Shop Assistant. How can I help you today?",
                   sender := .bot }],
    inputMessage := "hello", pendingReplies := [] }

/-- A chat with an input of two blanks and nothing pending. -/
def typedBlanks : Chatbot :=
  { messages := [{ text := "Hi! I'm Smart Shop Assistant. How can I help you today?",
                   sender := .bot }],
    inputMessage := "  ", pendingReplies := [] }

/-- Two listed products: a shirt without description and a described phone. -/
def listedSample : List ListedProduct :=
  [{ id := .num 1, name := "Blue Shirt", price := 500, imageUrl := none, stockQuantity := 3,
     description := none, category := some "Clothing" },
   { id := .num 2, name := "Phone", price := 9000, imageUrl := none, stockQuantity := 1,
     description := some "A smart phone in blue", category := some "Electronics" }]

/-! ## Lemmas on the array helpers -/

theorem findIndex_absent (p : LineItem → Bool) (cart : Cart)
    (h : ∀ item ∈ cart, p item = false) : findIndex p cart = -1 := by
  induction cart with
  | nil => rfl
  | cons x xs ih =>
    have hx : p x = false := h x (List.mem_cons_self _ _)
    have hxs : findIndex p xs = -1 := ih (fun item hi => h item (List.mem_cons_of_mem _ hi))
    simp [findIndex, hx, hxs]

theorem findIndex_split (p : LineItem → Bool) (cart : Cart)
    (h : ∃ item ∈ cart, p item = true) :
    ∃ pre item post, cart = pre ++ item :: post ∧ (∀ x ∈ pre, p x = false) ∧
      p item = true ∧ findIndex p cart = (pre.length : Int) := by
  induction cart with
  | nil => simp at h
  | cons x xs ih =>
    by_cases hx : p x = true
    · exact ⟨[], x, xs, rfl, by simp, hx, by simp [findIndex, hx]⟩
    · have hx0 : p x = false := by simpa using hx
      have hex : ∃ item ∈ xs, p item = true := by
        obtain ⟨item, hmem, hp⟩ := h
        rcases List.mem_cons.mp hmem with rfl | hmem
        · exact absurd hp hx
        · exact ⟨item, hmem, hp⟩
      obtain ⟨pre, item, post, hsplit, hpre, hitem, hidx⟩ := ih hex
      refine ⟨x :: pre, item, post, by simp [hsplit], ?_, hitem, ?_⟩
      · intro y hy
        rcases List.mem_cons.mp hy with rfl | hy
        · exact hx0
        · exact hpre y hy
      · have hpos : (pre.length : Int) > -1 := by omega
        simp only [findIndex, hx0, hidx, List.length_cons]
        simp [hpos]

theorem increaseQuantityAt_split (pre post : Cart) (item : LineItem) (quantity : Int) :
    increaseQuantityAt (pre ++ item :: post) pre.length quantity =
      pre ++ { item with quantity := item.quantity + quantity } :: post := by
  have hget : (pre ++ item :: post)[pre.length]? = some item := by
    rw [List.getElem?_append_right (Nat.le_refl _)]
    simp
  simp only [increaseQuantityAt, hget]
  simp

theorem findIndex_at (p : LineItem → Bool) (pre post : Cart) (item : LineItem)
    (hpre : ∀ x ∈ pre, p x = false) (hitem : p item = true) :
    findIndex p (pre ++ item :: post) = (pre.length : Int) := by
  induction pre with
  | nil => simp [findIndex, hitem]
  | cons x xs ih =>
    have hx : p x = false := hpre x (List.mem_cons_self _ _)
    have hxs := ih (fun y hy => hpre y (List.mem_cons_of_mem _ hy))
    have hpos : (xs.length : Int) > -1 := by omega
    rw [List.cons_append]
    simp only [findIndex, hx, List.length_cons]
    rw [hxs]
    simp [hpos]

theorem mergeIntoCart_split (product : Product) (quantity : Int) (pre post : Cart)
    (item : LineItem) (hpre : ∀ x ∈ pre, x.id ≠ product.id) (hitem : item.id = product.id) :
    mergeIntoCart product quantity (pre ++ item :: post) =
      pre ++ { item with quantity := item.quantity + quantity } :: post := by
  have hidx : findIndex (fun x => x.id == product.id) (pre ++ item :: post) =
      (pre.length : Int) :=
    findIndex_at _ pre post item (fun x hx => by simpa using hpre x hx) (by simp [hitem])
  have hpos : (pre.length : Int) > -1 := by omega
  have hmerge : mergeIntoCart product quantity (pre ++ item :: post) =
      increaseQuantityAt (pre ++ item :: post) pre.length quantity := by
    simp [mergeIntoCart, hidx, hpos]
  rw [hmerge, increaseQuantityAt_split]

theorem mergeIntoCart_absent (product : Product) (quantity : Int) (cart : Cart)
    (h : ∀ item ∈ cart, item.id ≠ product.id) :
    mergeIntoCart product quantity cart = cart ++ [newLineItem product quantity] := by
  have hidx : findIndex (fun item => item.id == product.id) cart = -1 :=
    findIndex_absent _ cart (fun item hi => by simpa using h item hi)
  simp [mergeIntoCart, hidx, newLineItem]

theorem mergeIntoCart_present (product : Product) (cart : Cart)
    (h : ∃ item ∈ cart, item.id = product.id) :
    ∃ pre item post, cart = pre ++ item :: post ∧ (∀ x ∈ pre, x.id ≠ product.id) ∧
      item.id = product.id ∧
      ∀ quantity : Int, mergeIntoCart product quantity cart =
        pre ++ { item with quantity := item.quantity + quantity } :: post := by
  have hex : ∃ item ∈ cart, (fun item : LineItem => item.id == product.id) item = true := by
    obtain ⟨item, hmem, hid⟩ := h
    exact ⟨item, hmem, by simp [hid]⟩
  obtain ⟨pre, item, post, hsplit, hpre, hitem, hidx⟩ := findIndex_split _ cart hex
  refine ⟨pre, item, post, hsplit, ?_, by simpa using hitem, ?_⟩
  · intro x hx
    simpa using hpre x hx
  · intro quantity
    have hpos : (pre.length : Int) > -1 := by omega
    have hmerge : mergeIntoCart product quantity cart =
        increaseQuantityAt cart pre.length quantity := by
      simp [mergeIntoCart, hidx, hpos]
    rw [hmerge, hsplit, increaseQuantityAt_split]

/-! ## Lemmas on counting ids -/

theorem countId_append (id : Key) (a b : Cart) :
    countId id (a ++ b) = countId id a + countId id b := by
  simp [countId]

theorem countId_cons (id : Key) (item : LineItem) (rest : Cart) :
    countId id (item :: rest) = (if item.id = id then 1 else 0) + countId id rest := by
  by_cases h : item.id = id
  · simp [countId, List.filter_cons, h, Nat.add_comm]
  · simp [countId, List.filter_cons, h]

theorem countId_eq_zero (id : Key) (cart : Cart) (h : ∀ item ∈ cart, item.id ≠ id) :
    countId id cart = 0 := by
  induction cart with
  | nil => rfl
  | cons x xs ih =>
    rw [countId_cons, ih (fun item hi => h item (List.mem_cons_of_mem _ hi))]
    simp [h x (List.mem_cons_self _ _)]

theorem countId_pos (id : Key) (cart : Cart) (h : ∃ item ∈ cart, item.id = id) :
    0 < countId id cart := by
  obtain ⟨item, hmem, hid⟩ := h
  have : item ∈ cart.filter (fun x => x.id == id) := by
    simp [List.mem_filter, hmem, hid]
  exact List.length_pos_of_mem this

theorem countId_map (id : Key) (f : LineItem → LineItem) (hf : ∀ item, (f item).id = item.id)
    (cart : Cart) : countId id (cart.map f) = countId id cart := by
  induction cart with
  | nil => rfl
  | cons x xs ih => rw [List.map_cons, countId_cons, countId_cons, ih, hf]

theorem countId_filter_le (id : Key) (q : LineItem → Bool) (cart : Cart) :
    countId id (cart.filter q) ≤ countId id cart := by
  induction cart with
  | nil => simp
  | cons x xs ih =>
    by_cases hq : q x = true
    · rw [List.filter_cons_of_pos hq, countId_cons, countId_cons]
      omega
    · rw [List.filter_cons_of_neg hq, countId_cons]
      omega

theorem countId_mergeIntoCart (id : Key) (product : Product) (quantity : Int) (cart : Cart) :
    countId id (mergeIntoCart product quantity cart) =
      if ∃ item ∈ cart, item.id = product.id then countId id cart
      else countId id cart + (if product.id = id then 1 else 0) := by
  by_cases h : ∃ item ∈ cart, item.id = product.id
  · obtain ⟨pre, item, post, hsplit, _, _, hmerge⟩ := mergeIntoCart_present product cart h
    rw [if_pos h, hmerge quantity, hsplit, countId_append, countId_append, countId_cons, countId_cons]
  · have habs : ∀ item ∈ cart, item.id ≠ product.id := fun item hi hid => h ⟨item, hi, hid⟩
    rw [if_neg h, mergeIntoCart_absent product quantity cart habs, countId_append, countId_cons]
    simp [countId, newLineItem]

theorem uniqueIds_nil : UniqueIds [] := by
  intro id
  simp [countId]

theorem countId_eq_count (id : Key) (cart : Cart) :
    countId id cart = (cart.map LineItem.id).count id := by
  induction cart with
  | nil => rfl
  | cons x xs ih =>
    rw [countId_cons, ih, List.map_cons, List.count_cons]
    by_cases h : x.id = id
    · simp [h, Nat.add_comm]
    · simp [h]

theorem uniqueIds_iff_nodup (cart : Cart) :
    UniqueIds cart ↔ (cart.map LineItem.id).Nodup := by
  rw [List.nodup_iff_count_le_one]
  constructor
  · intro h id
    rw [← countId_eq_count]
    exact h id
  · intro h id
    rw [countId_eq_count]
    exact h id

theorem uniqueIds_mergeIntoCart (product : Product) (quantity : Int) (cart : Cart)
    (h : UniqueIds cart) : UniqueIds (mergeIntoCart product quantity cart) := by
  intro id
  rw [countId_mergeIntoCart]
  by_cases hex : ∃ item ∈ cart, item.id = product.id
  · rw [if_pos hex]
    exact h id
  · rw [if_neg hex]
    by_cases hid : product.id = id
    · have hzero : countId id cart = 0 :=
        countId_eq_zero id cart (fun item hi hitem => hex ⟨item, hi, hitem.trans hid.symm⟩)
      simp [hid, hzero]
    · simpa [hid] using h id

theorem uniqueIds_map (f : LineItem → LineItem) (hf : ∀ item, (f item).id = item.id)
    (cart : Cart) (h : UniqueIds cart) : UniqueIds (cart.map f) := by
  intro id
  rw [countId_map id f hf]
  exact h id

theorem uniqueIds_filter (q : LineItem → Bool) (cart : Cart) (h : UniqueIds cart) :
    UniqueIds (cart.filter q) :=
  fun id => Nat.le_trans (countId_filter_le id q cart) (h id)

/-! ## Lemmas on the handlers -/

theorem storedCart_setItem (localStorage stored : LocalStorage) (cart : Cart)
    (h : localStorage.setItem cart = .ok stored) :
    storedCart stored = some cart ∧ stored.writable = localStorage.writable := by
  unfold LocalStorage.setItem at h
  by_cases hw : localStorage.writable = true
  · rw [if_pos hw] at h
    injection h with h
    subst h
    exact ⟨rfl, rfl⟩
  · rw [if_neg hw] at h
    cases h

theorem handleAddToCart_ok (product : Product) (quantity : Int) (localStorage : LocalStorage)
    (cart : Cart) (hread : storedCart localStorage = some cart)
    (hw : localStorage.writable = true) :
    ProductDetailsPage.handleAddToCart product quantity localStorage =
      .ok { localStorage with cart := some (.items (mergeIntoCart product quantity cart)) } := by
  unfold storedCart at hread
  unfold ProductDetailsPage.handleAddToCart
  split at hread
  · next c hc =>
    injection hread with hread
    subst hread
    simp [hc, LocalStorage.setItem, hw]
  · cases hread

theorem handleAddToCart_inv (product : Product) (quantity : Int)
    (localStorage stored : LocalStorage)
    (h : ProductDetailsPage.handleAddToCart product quantity localStorage = .ok stored) :
    ∃ cart, storedCart localStorage = some cart ∧
      storedCart stored = some (mergeIntoCart product quantity cart) := by
  unfold ProductDetailsPage.handleAddToCart at h
  split at h
  · cases h
  · cases h
  · next c hc =>
    exact ⟨c, by simp [storedCart, hc], (storedCart_setItem _ _ _ h).1⟩

theorem listPage_handleAddToCart_eq (product : Product) (localStorage : LocalStorage) :
    ProductListPage.handleAddToCart product localStorage =
      ProductDetailsPage.handleAddToCart product 1 localStorage := by
  unfold ProductListPage.handleAddToCart ProductDetailsPage.handleAddToCart mergeIntoCart
  rfl

/-! ## The uniqueness invariant -/

theorem sessionInv_emptySession (writable : Bool) : SessionInv (emptySession writable) :=
  ⟨⟨[], rfl, uniqueIds_nil⟩, uniqueIds_nil⟩

theorem sessionInv_add (product : Product) (quantity : Int) (s : CartPage)
    (h : SessionInv s) : SessionInv (step (.add product quantity) s) := by
  obtain ⟨⟨cart, hread, huniq⟩, hmem⟩ := h
  simp only [step]
  split
  · next stored hok =>
    obtain ⟨cart0, hread0, hstored⟩ := handleAddToCart_inv _ _ _ _ hok
    have hc : cart0 = cart := Option.some.inj (hread0.symm.trans hread)
    subst hc
    exact ⟨⟨_, hstored, uniqueIds_mergeIntoCart _ _ _ huniq⟩, hmem⟩
  · exact ⟨⟨cart, hread, huniq⟩, hmem⟩

theorem sessionInv_setItem (s : CartPage) (updatedCart : Cart)
    (h : SessionInv s) (hu : UniqueIds updatedCart) :
    SessionInv
      (match s.localStorage.setItem updatedCart with
        | .ok stored =>
          ({ page := { cartItems := updatedCart, localStorage := stored }, raised := none } :
            Outcome)
        | .error e => { page := { s with cartItems := updatedCart }, raised := some e }).page := by
  split
  · next stored hok =>
    exact ⟨⟨updatedCart, (storedCart_setItem _ _ _ hok).1, hu⟩, hu⟩
  · exact ⟨h.1, hu⟩

theorem sessionInv_step (op : CartOp) (s : CartPage) (h : SessionInv s) :
    SessionInv (step op s) := by
  cases op with
  | add product quantity => exact sessionInv_add product quantity s h
  | addOne product =>
    have := sessionInv_add product 1 s h
    simpa only [step, listPage_handleAddToCart_eq] using this
  | load =>
    obtain ⟨⟨cart, hread, huniq⟩, hmem⟩ := h
    simp only [step, CartPage.loadCart]
    unfold storedCart at hread
    split
    · exact ⟨⟨cart, by simpa [storedCart] using hread, huniq⟩, hmem⟩
    · next lengthZero hc =>
      rw [hc] at hread
      cases hread
    · next c hc =>
      rw [hc] at hread
      have hcc : c = cart := Option.some.inj hread
      subst hcc
      exact ⟨⟨c, by simp [storedCart, hc], huniq⟩, huniq⟩
  | updateQuantity productId newQuantity =>
    simp only [step, CartPage.updateQuantity]
    by_cases hn : newQuantity < 1
    · rw [if_pos hn]
      exact h
    · rw [if_neg hn]
      refine sessionInv_setItem s _ h (uniqueIds_map _ ?_ _ h.2)
      intro item
      by_cases hid : (item.id == productId) = true
      · rw [if_pos hid]
      · rw [if_neg hid]
  | remove productId =>
    simp only [step, CartPage.removeItem]
    exact sessionInv_setItem s _ h (uniqueIds_filter _ _ h.2)
  | clear =>
    exact ⟨⟨[], rfl, uniqueIds_nil⟩, uniqueIds_nil⟩

theorem sessionInv_run (ops : List CartOp) (s : CartPage) (h : SessionInv s) :
    SessionInv (run ops s) := by
  induction ops generalizing s with
  | nil => exact h
  | cons op rest ih => exact ih (step op s) (sessionInv_step op s h)

theorem uniqueIds_adds (adds : List (Product × Int)) (cart : Cart) (h : UniqueIds cart) :
    UniqueIds (adds.foldl (fun acc a => mergeIntoCart a.1 a.2 acc) cart) := by
  induction adds generalizing cart with
  | nil => exact h
  | cons a rest ih => exact ih _ (uniqueIds_mergeIntoCart a.1 a.2 cart h)

/-! ## Lemmas on sequences of adds -/

theorem ids_mergeIntoCart_absent (product : Product) (quantity : Int) (cart : Cart)
    (h : ∀ item ∈ cart, item.id ≠ product.id) :
    (mergeIntoCart product quantity cart).map LineItem.id =
      cart.map LineItem.id ++ [product.id] := by
  rw [mergeIntoCart_absent product quantity cart h]
  simp [newLineItem]

theorem ids_adds (adds : List (Product × Int)) (cart : Cart)
    (h : (cart.map LineItem.id ++ adds.map (fun a => a.1.id)).Nodup) :
    (adds.foldl (fun acc a => mergeIntoCart a.1 a.2 acc) cart).map LineItem.id =
      cart.map LineItem.id ++ adds.map (fun a => a.1.id) := by
  induction adds generalizing cart with
  | nil => simp
  | cons a rest ih =>
    have habs : ∀ item ∈ cart, item.id ≠ a.1.id := by
      intro item hi hid
      have hdisj := (List.nodup_append.mp h).2.2
      exact hdisj (List.mem_map_of_mem LineItem.id hi) (by simp [hid])
    have hstep := ids_mergeIntoCart_absent a.1 a.2 cart habs
    have hnodup : ((mergeIntoCart a.1 a.2 cart).map LineItem.id ++
        rest.map (fun a => a.1.id)).Nodup := by
      rw [hstep]
      simpa [List.append_assoc] using h
    rw [List.foldl_cons, ih _ hnodup, hstep]
    simp [List.append_assoc]

theorem handleAddToCart_twice (P P2 : Product) (a b : Int) (localStorage : LocalStorage)
    (cart : Cart) (hread : storedCart localStorage = some cart)
    (hw : localStorage.writable = true) :
    ∃ first second,
      ProductDetailsPage.handleAddToCart P a localStorage = .ok first ∧
      ProductDetailsPage.handleAddToCart P2 b first = .ok second ∧
      storedCart second = some (mergeIntoCart P2 b (mergeIntoCart P a cart)) := by
  refine ⟨_, _, handleAddToCart_ok P a localStorage cart hread hw,
    handleAddToCart_ok P2 b _ (mergeIntoCart P a cart) rfl hw, rfl⟩

/-! ## Lemmas on the cart page -/

theorem absent_of_unique_split (pre post : Cart) (item : LineItem)
    (h : UniqueIds (pre ++ item :: post)) :
    ∀ x ∈ pre ++ post, x.id ≠ item.id := by
  have hcount := h item.id
  rw [countId_append, countId_cons] at hcount
  simp only [if_true] at hcount
  intro x hx hid
  rcases List.mem_append.mp hx with hp | hp
  · have := countId_pos item.id pre ⟨x, hp, hid⟩
    omega
  · have := countId_pos item.id post ⟨x, hp, hid⟩
    omega

theorem map_setQuantity_absent (productId : Key) (newQuantity : Int) (cart : Cart)
    (h : ∀ x ∈ cart, x.id ≠ productId) :
    cart.map (fun item =>
      if item.id == productId then { item with quantity := newQuantity } else item) = cart := by
  induction cart with
  | nil => rfl
  | cons x xs ih =>
    have hx : x.id ≠ productId := h x (List.mem_cons_self _ _)
    rw [List.map_cons, ih (fun y hy => h y (List.mem_cons_of_mem _ hy))]
    simp [hx]

theorem setItem_writable (localStorage : LocalStorage) (cart : Cart)
    (hw : localStorage.writable = true) :
    localStorage.setItem cart = .ok { localStorage with cart := some (.items cart) } := by
  simp [LocalStorage.setItem, hw]

theorem setItem_refused (localStorage : LocalStorage) (cart : Cart)
    (hw : localStorage.writable = false) :
    localStorage.setItem cart = .error .quotaExceeded := by
  simp [LocalStorage.setItem, hw]

theorem updateQuantity_cartItems (productId : Key) (newQuantity : Int) (page : CartPage)
    (hn : 1 ≤ newQuantity) :
    (CartPage.updateQuantity productId newQuantity page).page.cartItems =
      page.cartItems.map (fun item =>
        if item.id == productId then { item with quantity := newQuantity } else item) := by
  have hlt : ¬ newQuantity < 1 := by omega
  cases hw : page.localStorage.writable
  · simp [CartPage.updateQuantity, hlt, setItem_refused _ _ hw]
  · simp [CartPage.updateQuantity, hlt, setItem_writable _ _ hw]

theorem updateQuantity_stored (productId : Key) (newQuantity : Int) (page : CartPage)
    (hn : 1 ≤ newQuantity) (hw : page.localStorage.writable = true) :
    (CartPage.updateQuantity productId newQuantity page).page.localStorage =
      { page.localStorage with cart := some (.items
          (CartPage.updateQuantity productId newQuantity page).page.cartItems) } ∧
    (CartPage.updateQuantity productId newQuantity page).raised = none := by
  have hlt : ¬ newQuantity < 1 := by omega
  simp [CartPage.updateQuantity, hlt, setItem_writable _ _ hw]

theorem removeItem_cartItems (productId : Key) (page : CartPage) :
    (CartPage.removeItem productId page).page.cartItems =
      page.cartItems.filter (fun item => item.id != productId) := by
  cases hw : page.localStorage.writable
  · simp [CartPage.removeItem, setItem_refused _ _ hw]
  · simp [CartPage.removeItem, setItem_writable _ _ hw]

theorem removeItem_stored (productId : Key) (page : CartPage)
    (hw : page.localStorage.writable = true) :
    (CartPage.removeItem productId page).page.localStorage =
      { page.localStorage with cart := some (.items
          (CartPage.removeItem productId page).page.cartItems) } ∧
    (CartPage.removeItem productId page).raised = none := by
  simp [CartPage.removeItem, setItem_writable _ _ hw]

theorem filter_absent (productId : Key) (cart : Cart) (h : ∀ x ∈ cart, x.id ≠ productId) :
    cart.filter (fun item => item.id != productId) = cart := by
  rw [List.filter_eq_self]
  intro x hx
  simpa using h x hx

/-! ## Lemmas on totals -/

theorem foldl_total (cart : Cart) (acc : ℚ) :
    cart.foldl (fun total item => total + item.price * (item.quantity : ℚ)) acc =
      acc + cartSum cart := by
  induction cart generalizing acc with
  | nil => simp [cartSum]
  | cons x xs ih =>
    rw [List.foldl_cons, ih]
    simp [cartSum, add_assoc]

theorem foldl_total_zero (cart : Cart) :
    cart.foldl (fun total item => total + item.price * (item.quantity : ℚ)) 0 = cartSum cart := by
  rw [foldl_total, zero_add]

theorem cartSum_append (a b : Cart) : cartSum (a ++ b) = cartSum a + cartSum b := by
  simp [cartSum]

theorem nearestHundredth_cast (x : ℚ) (hx : 0 ≤ x) :
    ((nearestHundredth x : ℕ) : ℚ) = ((⌊x * 100 + 1 / 2⌋ : ℤ) : ℚ) := by
  have hfloor : (0 : ℤ) ≤ ⌊x * 100 + 1 / 2⌋ := by
    apply Int.floor_nonneg.mpr
    positivity
  unfold nearestHundredth
  have hcast : ((⌊x * 100 + 1 / 2⌋.toNat : ℕ) : ℤ) = ⌊x * 100 + 1 / 2⌋ :=
    Int.toNat_of_nonneg hfloor
  exact_mod_cast congrArg (fun z : ℤ => (z : ℚ)) hcast

theorem nearestHundredth_close (x : ℚ) (hx : 0 ≤ x) :
    |(nearestHundredth x : ℚ) / 100 - x| ≤ 1 / 200 := by
  rw [nearestHundredth_cast x hx]
  have hle : ((⌊x * 100 + 1 / 2⌋ : ℤ) : ℚ) ≤ x * 100 + 1 / 2 := Int.floor_le _
  have hlt : x * 100 + 1 / 2 < ((⌊x * 100 + 1 / 2⌋ : ℤ) : ℚ) + 1 := Int.lt_floor_add_one _
  rw [abs_le]
  constructor <;> linarith

theorem nearestHundredth_exact (x : ℚ) (k : ℕ) (h : x * 100 = (k : ℚ)) :
    nearestHundredth x = k := by
  unfold nearestHundredth
  have hfloor : ⌊x * 100 + 1 / 2⌋ = (k : ℤ) := by
    rw [Int.floor_eq_iff, h]
    constructor
    · push_cast
      linarith
    · push_cast
      linarith
  rw [hfloor]
  exact Int.toNat_natCast k

/-! ## Lemmas on quantities -/

theorem quantitiesPositive_nil : QuantitiesPositive [] := by
  intro item hmem
  cases hmem

theorem quantitiesPositive_mergeIntoCart (product : Product) (q : Int) (cart : Cart)
    (h : QuantitiesPositive cart) (hq : 1 ≤ q) :
    QuantitiesPositive (mergeIntoCart product q cart) := by
  by_cases hex : ∃ item ∈ cart, item.id = product.id
  · obtain ⟨pre, item, post, hsplit, _, _, hmerge⟩ := mergeIntoCart_present product cart hex
    rw [hmerge q]
    intro x hx
    have hitem : 1 ≤ item.quantity := h item (by rw [hsplit]; simp)
    rcases List.mem_append.mp hx with hp | hp
    · exact h x (by rw [hsplit]; exact List.mem_append_left _ hp)
    · rcases List.mem_cons.mp hp with rfl | hp
      · show 1 ≤ item.quantity + q
        omega
      · exact h x (by rw [hsplit]; exact List.mem_append_right _ (List.mem_cons_of_mem _ hp))
  · have habs : ∀ item ∈ cart, item.id ≠ product.id := fun item hi hid => hex ⟨item, hi, hid⟩
    rw [mergeIntoCart_absent product q cart habs]
    intro x hx
    rcases List.mem_append.mp hx with hp | hp
    · exact h x hp
    · have : x = newLineItem product q := by simpa using hp
      subst this
      exact hq

theorem length_le_mergeIntoCart (product : Product) (q : Int) (cart : Cart) :
    cart.length ≤ (mergeIntoCart product q cart).length := by
  by_cases hex : ∃ item ∈ cart, item.id = product.id
  · obtain ⟨pre, item, post, hsplit, _, _, hmerge⟩ := mergeIntoCart_present product cart hex
    rw [hmerge q, hsplit]
    simp
  · have habs : ∀ item ∈ cart, item.id ≠ product.id := fun item hi hid => hex ⟨item, hi, hid⟩
    rw [mergeIntoCart_absent product q cart habs]
    simp

theorem quantitiesPositive_setQuantity (productId : Key) (n : Int) (cart : Cart)
    (h : QuantitiesPositive cart) (hn : 1 ≤ n) :
    QuantitiesPositive (cart.map (fun item =>
      if item.id == productId then { item with quantity := n } else item)) := by
  intro x hx
  obtain ⟨item, hitem, rfl⟩ := List.mem_map.mp hx
  by_cases hid : (item.id == productId) = true
  · rw [if_pos hid]
    exact hn
  · rw [if_neg hid]
    exact h item hitem

theorem quantitiesPositive_filter (q : LineItem → Bool) (cart : Cart)
    (h : QuantitiesPositive cart) : QuantitiesPositive (cart.filter q) :=
  fun item hmem => h item (List.mem_filter.mp hmem).1

/-! ## Lemmas on the quantity invariant -/

theorem quantityInv_add (product : Product) (q : Int) (s : CartPage)
    (h : QuantityInv s) (hq : 1 ≤ q) : QuantityInv (step (.add product q) s) := by
  obtain ⟨⟨cart, hread, hpos⟩, hmem⟩ := h
  simp only [step]
  split
  · next stored hok =>
    obtain ⟨cart0, hread0, hstored⟩ := handleAddToCart_inv _ _ _ _ hok
    have hc : cart0 = cart := Option.some.inj (hread0.symm.trans hread)
    subst hc
    exact ⟨⟨_, hstored, quantitiesPositive_mergeIntoCart _ _ _ hpos hq⟩, hmem⟩
  · exact ⟨⟨cart, hread, hpos⟩, hmem⟩

theorem quantityInv_setItem (s : CartPage) (updatedCart : Cart)
    (h : QuantityInv s) (hu : QuantitiesPositive updatedCart) :
    QuantityInv
      (match s.localStorage.setItem updatedCart with
        | .ok stored =>
          ({ page := { cartItems := updatedCart, localStorage := stored }, raised := none } :
            Outcome)
        | .error e => { page := { s with cartItems := updatedCart }, raised := some e }).page := by
  split
  · next stored hok =>
    exact ⟨⟨updatedCart, (storedCart_setItem _ _ _ hok).1, hu⟩, hu⟩
  · exact ⟨h.1, hu⟩

theorem quantityInv_step (op : CartOp) (s : CartPage) (h : QuantityInv s)
    (hq : ∀ product q, op = .add product q → 1 ≤ q) : QuantityInv (step op s) := by
  cases op with
  | add product quantity => exact quantityInv_add product quantity s h (hq product quantity rfl)
  | addOne product =>
    have := quantityInv_add product 1 s h (by decide)
    simpa only [step, listPage_handleAddToCart_eq] using this
  | load =>
    obtain ⟨⟨cart, hread, hpos⟩, hmem⟩ := h
    simp only [step, CartPage.loadCart]
    unfold storedCart at hread
    split
    · exact ⟨⟨cart, by simpa [storedCart] using hread, hpos⟩, hmem⟩
    · next lengthZero hc =>
      rw [hc] at hread
      cases hread
    · next c hc =>
      rw [hc] at hread
      have hcc : c = cart := Option.some.inj hread
      subst hcc
      exact ⟨⟨c, by simp [storedCart, hc], hpos⟩, hpos⟩
  | updateQuantity productId newQuantity =>
    simp only [step, CartPage.updateQuantity]
    by_cases hn : newQuantity < 1
    · rw [if_pos hn]
      exact h
    · rw [if_neg hn]
      exact quantityInv_setItem s _ h
        (quantitiesPositive_setQuantity productId newQuantity _ h.2 (by omega))
  | remove productId =>
    simp only [step, CartPage.removeItem]
    exact quantityInv_setItem s _ h (quantitiesPositive_filter _ _ h.2)
  | clear =>
    exact ⟨⟨[], rfl, quantitiesPositive_nil⟩, quantitiesPositive_nil⟩

theorem updateQuantity_length (productId : Key) (n : Int) (page : CartPage) :
    (CartPage.updateQuantity productId n page).page.cartItems.length =
      page.cartItems.length := by
  by_cases hn : n < 1
  · simp [CartPage.updateQuantity, hn]
  · rw [updateQuantity_cartItems productId n page (by omega), List.length_map]

/-! ## Lemmas on the selector and the header count -/

theorem selectorStep_bounds (stockQuantity quantity : Int) (click : SelectorClick)
    (hstock : 1 ≤ stockQuantity) (h : 1 ≤ quantity ∧ quantity ≤ stockQuantity) :
    1 ≤ ProductDetailsPage.selectorStep stockQuantity quantity click ∧
      ProductDetailsPage.selectorStep stockQuantity quantity click ≤ stockQuantity := by
  cases click with
  | minus =>
    simp only [ProductDetailsPage.selectorStep]
    constructor
    · exact le_max_left _ _
    · exact max_le hstock (by omega)
  | plus =>
    simp only [ProductDetailsPage.selectorStep]
    constructor
    · exact le_min hstock (by omega)
    · exact min_le_left _ _

theorem selectorFold_bounds (stockQuantity : Int) (clicks : List SelectorClick)
    (hstock : 1 ≤ stockQuantity) (quantity : Int)
    (h : 1 ≤ quantity ∧ quantity ≤ stockQuantity) :
    1 ≤ clicks.foldl (ProductDetailsPage.selectorStep stockQuantity) quantity ∧
      clicks.foldl (ProductDetailsPage.selectorStep stockQuantity) quantity ≤ stockQuantity := by
  induction clicks generalizing quantity with
  | nil => exact h
  | cons click rest ih =>
    exact ih _ (selectorStep_bounds stockQuantity quantity click hstock h)

theorem foldl_quantity (cart : Cart) (acc : Int) :
    cart.foldl (fun sum item => sum + item.quantity) acc = acc + quantitySum cart := by
  induction cart generalizing acc with
  | nil => simp [quantitySum]
  | cons x xs ih =>
    rw [List.foldl_cons, ih]
    simp [quantitySum, add_assoc]

theorem quantitySum_append (a b : Cart) :
    quantitySum (a ++ b) = quantitySum a + quantitySum b := by
  simp [quantitySum]

theorem quantitySum_cons (item : LineItem) (rest : Cart) :
    quantitySum (item :: rest) = item.quantity + quantitySum rest := by
  simp [quantitySum]

theorem quantitySum_mergeIntoCart (product : Product) (q : Int) (cart : Cart) :
    quantitySum (mergeIntoCart product q cart) = quantitySum cart + q := by
  by_cases hex : ∃ item ∈ cart, item.id = product.id
  · obtain ⟨pre, item, post, hsplit, _, _, hmerge⟩ := mergeIntoCart_present product cart hex
    rw [hmerge q, hsplit, quantitySum_append, quantitySum_append, quantitySum_cons,
      quantitySum_cons]
    simp only
    omega
  · have habs : ∀ item ∈ cart, item.id ≠ product.id := fun item hi hid => hex ⟨item, hi, hid⟩
    rw [mergeIntoCart_absent product q cart habs, quantitySum_append, quantitySum_cons]
    simp [newLineItem, quantitySum]

theorem updateCartCount_stored (localStorage : LocalStorage) (cart : Cart)
    (h : storedCart localStorage = some cart) :
    Header.updateCartCount localStorage = .ok (quantitySum cart) := by
  unfold storedCart at h
  unfold Header.updateCartCount
  split at h
  · next c hc =>
    injection h with h
    subst h
    simp [hc, foldl_quantity]
  · cases h

/-! ## Lemmas on the slices -/

/-- The three cases of `fetchCart` in `cartSlice`, field by field. -/
theorem cartSlice_lifecycle (state : CartSliceState) (payload : Option String)
    (cartPayload : CartPayload) :
    (cartSlice.fetchCartPending state).loading = true ∧
    (cartSlice.fetchCartPending state).error = none ∧
    (cartSlice.fetchCartPending state).items = state.items ∧
    (cartSlice.fetchCartPending state).totalAmount = state.totalAmount ∧
    (cartSlice.fetchCartRejected state payload).loading = false ∧
    (cartSlice.fetchCartRejected state payload).error = payload ∧
    (cartSlice.fetchCartRejected state payload).items = state.items ∧
    (cartSlice.fetchCartRejected state payload).totalAmount = state.totalAmount ∧
    (cartSlice.fetchCartFulfilled state cartPayload).loading = false ∧
    (cartSlice.fetchCartFulfilled state cartPayload).error = state.error :=
  ⟨rfl, rfl, rfl, rfl, rfl, rfl, rfl, rfl, rfl, rfl⟩

/-- The nine cases of the three thunks of `orderSlice`, field by field. -/
theorem orderSlice_lifecycle {Order : Type} (state : OrderSliceState Order)
    (payload : Option String) (orderList : List Order) (order : Order) :
    (orderSlice.fetchOrdersPending state).loading = true ∧
    (orderSlice.fetchOrdersPending state).error = none ∧
    (orderSlice.fetchOrdersPending state).orders = state.orders ∧
    (orderSlice.fetchOrdersPending state).currentOrder = state.currentOrder ∧
    (orderSlice.fetchOrdersRejected state payload).loading = false ∧
    (orderSlice.fetchOrdersRejected state payload).error = payload ∧
    (orderSlice.fetchOrdersRejected state payload).orders = state.orders ∧
    (orderSlice.fetchOrdersRejected state payload).currentOrder = state.currentOrder ∧
    (orderSlice.fetchOrdersFulfilled state orderList).loading = false ∧
    (orderSlice.fetchOrdersFulfilled state orderList).error = state.error ∧
    (orderSlice.createOrderPending state).loading = true ∧
    (orderSlice.createOrderPending state).error = none ∧
    (orderSlice.createOrderPending state).orders = state.orders ∧
    (orderSlice.createOrderPending state).currentOrder = state.currentOrder ∧
    (orderSlice.createOrderRejected state payload).loading = false ∧
    (orderSlice.createOrderRejected state payload).error = payload ∧
    (orderSlice.createOrderRejected state payload).orders = state.orders ∧
    (orderSlice.createOrderRejected state payload).currentOrder = state.currentOrder ∧
    (orderSlice.createOrderFulfilled state order).loading = false ∧
    (orderSlice.createOrderFulfilled state order).error = state.error ∧
    (orderSlice.fetchOrderByIdPending state).loading = true ∧
    (orderSlice.fetchOrderByIdPending state).error = none ∧
    (orderSlice.fetchOrderByIdPending state).orders = state.orders ∧
    (orderSlice.fetchOrderByIdPending state).currentOrder = state.currentOrder ∧
    (orderSlice.fetchOrderByIdRejected state payload).loading = false ∧
    (orderSlice.fetchOrderByIdRejected state payload).error = payload ∧
    (orderSlice.fetchOrderByIdRejected state payload).orders = state.orders ∧
    (orderSlice.fetchOrderByIdRejected state payload).currentOrder = state.currentOrder ∧
    (orderSlice.fetchOrderByIdFulfilled state order).loading = false ∧
    (orderSlice.fetchOrderByIdFulfilled state order).error = state.error :=
  ⟨rfl, rfl, rfl, rfl, rfl, rfl, rfl, rfl, rfl, rfl, rfl, rfl, rfl, rfl, rfl, rfl, rfl, rfl,
    rfl, rfl, rfl, rfl, rfl, rfl, rfl, rfl, rfl, rfl, rfl, rfl⟩

/-- The nine cases of the three thunks of `productSlice`, field by field. -/
theorem productSlice_lifecycle {P : Type} (state : ProductSliceState P)
    (payload : Option String) (productList : List P) (product : P) :
    (productSlice.fetchProductsPending state).loading = true ∧
    (productSlice.fetchProductsPending state).error = none ∧
    (productSlice.fetchProductsPending state).items = state.items ∧
    (productSlice.fetchProductsPending state).currentProduct = state.currentProduct ∧
    (productSlice.fetchProductsPending state).filters = state.filters ∧
    (productSlice.fetchProductsRejected state payload).loading = false ∧
    (productSlice.fetchProductsRejected state payload).error = payload ∧
    (productSlice.fetchProductsRejected state payload).items = state.items ∧
    (productSlice.fetchProductsRejected state payload).currentProduct = state.currentProduct ∧
    (productSlice.fetchProductsRejected state payload).filters = state.filters ∧
    (productSlice.fetchProductsFulfilled state productList).loading = false ∧
    (productSlice.fetchProductsFulfilled state productList).error = state.error ∧
    (productSlice.fetchProductByIdPending state).loading = true ∧
    (productSlice.fetchProductByIdPending state).error = none ∧
    (productSlice.fetchProductByIdPending state).items = state.items ∧
    (productSlice.fetchProductByIdPending state).currentProduct = state.currentProduct ∧
    (productSlice.fetchProductByIdPending state).filters = state.filters ∧
    (productSlice.fetchProductByIdRejected state payload).loading = false ∧
    (productSlice.fetchProductByIdRejected state payload).error = payload ∧
    (productSlice.fetchProductByIdRejected state payload).items = state.items ∧
    (productSlice.fetchProductByIdRejected state payload).currentProduct = state.currentProduct ∧
    (productSlice.fetchProductByIdRejected state payload).filters = state.filters ∧
    (productSlice.fetchProductByIdFulfilled state product).loading = false ∧
    (productSlice.fetchProductByIdFulfilled state product).error = state.error ∧
    (productSlice.searchProductsPending state).loading = true ∧
    (productSlice.searchProductsPending state).error = none ∧
    (productSlice.searchProductsPending state).items = state.items ∧
    (productSlice.searchProductsPending state).currentProduct = state.currentProduct ∧
    (productSlice.searchProductsPending state).filters = state.filters ∧
    (productSlice.searchProductsRejected state payload).loading = false ∧
    (productSlice.searchProductsRejected state payload).error = payload ∧
    (productSlice.searchProductsRejected state payload).items = state.items ∧
    (productSlice.searchProductsRejected state payload).currentProduct = state.currentProduct ∧
    (productSlice.searchProductsRejected state payload).filters = state.filters ∧
    (productSlice.searchProductsFulfilled state productList).loading = false ∧
    (productSlice.searchProductsFulfilled state productList).error = state.error :=
  ⟨rfl, rfl, rfl, rfl, rfl, rfl, rfl, rfl, rfl, rfl, rfl, rfl, rfl, rfl, rfl, rfl, rfl, rfl,
    rfl, rfl, rfl, rfl, rfl, rfl, rfl, rfl, rfl, rfl, rfl, rfl, rfl, rfl, rfl, rfl, rfl, rfl⟩

/-! ## Lemmas on strings -/

theorem startsWithChars_iff (s t : List Char) :
    startsWithChars s t = true ↔ ∃ after, s = t ++ after := by
  induction t generalizing s with
  | nil => simp [startsWithChars]
  | cons d t ih =>
    cases s with
    | nil => simp [startsWithChars]
    | cons c s =>
      simp only [startsWithChars, Bool.and_eq_true, beq_iff_eq, ih, List.cons_append,
        List.cons.injEq]
      constructor
      · rintro ⟨hcd, after, hs⟩
        exact ⟨after, hcd, hs⟩
      · rintro ⟨after, hcd, hs⟩
        exact ⟨hcd, after, hs⟩

theorem includesChars_iff (s t : List Char) :
    includesChars s t = true ↔ ∃ before after, s = before ++ t ++ after := by
  induction s with
  | nil =>
    simp only [includesChars, startsWithChars_iff]
    constructor
    · rintro ⟨after, h⟩
      exact ⟨[], after, by simpa using h⟩
    · rintro ⟨before, after, h⟩
      have hnil : before ++ t ++ after = [] := h.symm
      simp only [List.append_eq_nil] at hnil
      exact ⟨[], by simp [hnil.1.2]⟩
  | cons c s ih =>
    simp only [includesChars, Bool.or_eq_true, startsWithChars_iff, ih]
    constructor
    · rintro (⟨after, h⟩ | ⟨before, after, h⟩)
      · exact ⟨[], after, by simpa using h⟩
      · exact ⟨c :: before, after, by simp [h]⟩
    · rintro ⟨before, after, h⟩
      cases before with
      | nil => exact Or.inl ⟨after, by simpa using h⟩
      | cons b before =>
        simp only [List.cons_append, List.cons.injEq] at h
        exact Or.inr ⟨before, after, h.2⟩

theorem includes_iff (s t : String) : includes s t = true ↔ Contains s t :=
  includesChars_iff s.data t.data

theorem includes_empty (s : String) : includes s "" = true :=
  (includes_iff s "").mpr ⟨[], s.data, rfl⟩

theorem asciiLowerChar_idem (c : Char) : asciiLowerChar (asciiLowerChar c) = asciiLowerChar c := by
  by_cases h : 65 ≤ c.toNat ∧ c.toNat ≤ 90
  · have hc : c = Char.ofNat c.toNat := (Char.ofNat_toNat c).symm
    generalize c.toNat = n at h hc
    obtain ⟨h1, h2⟩ := h
    subst hc
    interval_cases n <;> decide
  · have hkeep : asciiLowerChar c = c := by simp [asciiLowerChar, h]
    rw [hkeep, hkeep]

theorem asciiLowerCase_idem (s : String) :
    asciiLowerCase (asciiLowerCase s) = asciiLowerCase s := by
  have hcomp : asciiLowerChar ∘ asciiLowerChar = asciiLowerChar :=
    funext asciiLowerChar_idem
  simp [asciiLowerCase, hcomp]

/-! ## Lemmas on the chatbot -/

theorem getBotResponse_eq_firstMatch (toLowerCase : String → String) (m : String) :
    Chatbot.getBotResponse toLowerCase m =
      Chatbot.firstMatch Chatbot.rules Chatbot.defaultAnswer (toLowerCase m) := by
  simp only [Chatbot.getBotResponse, Chatbot.firstMatch, Chatbot.rules, List.any_cons,
    List.any_nil, Bool.or_false, Bool.or_assoc]

theorem firstMatch_split (before after : List (List String × String)) (keywords : List String)
    (answer fallback message : String)
    (hbefore : ∀ rule ∈ before, ∀ keyword ∈ rule.1, includes message keyword = false)
    (hhit : ∃ keyword ∈ keywords, includes message keyword = true) :
    Chatbot.firstMatch (before ++ (keywords, answer) :: after) fallback message = answer := by
  induction before with
  | nil =>
    obtain ⟨keyword, hmem, hinc⟩ := hhit
    have hany : keywords.any (fun keyword => includes message keyword) = true :=
      List.any_eq_true.mpr ⟨keyword, hmem, hinc⟩
    simp [Chatbot.firstMatch, hany]
  | cons rule rest ih =>
    obtain ⟨ruleKeywords, ruleAnswer⟩ := rule
    have hnone : ruleKeywords.any (fun keyword => includes message keyword) = false := by
      rw [List.any_eq_false]
      intro keyword hk
      simpa using hbefore (ruleKeywords, ruleAnswer) (List.mem_cons_self _ _) keyword hk
    rw [List.cons_append]
    simp only [Chatbot.firstMatch, hnone]
    exact ih (fun r hr => hbefore r (List.mem_cons_of_mem _ hr))

theorem firstMatch_eq_fallback_iff (table : List (List String × String))
    (fallback message : String) (hne : ∀ rule ∈ table, rule.2 ≠ fallback) :
    Chatbot.firstMatch table fallback message = fallback ↔
      ∀ rule ∈ table, ∀ keyword ∈ rule.1, includes message keyword = false := by
  induction table with
  | nil => simp [Chatbot.firstMatch]
  | cons rule rest ih =>
    obtain ⟨keywords, answer⟩ := rule
    have hrest := ih (fun r hr => hne r (List.mem_cons_of_mem _ hr))
    have hanswer : answer ≠ fallback := hne (keywords, answer) (List.mem_cons_self _ _)
    by_cases hany : keywords.any (fun keyword => includes message keyword) = true
    · simp only [Chatbot.firstMatch, hany, if_true]
      constructor
      · intro h
        exact absurd h hanswer
      · intro h
        obtain ⟨keyword, hk, hinc⟩ := List.any_eq_true.mp hany
        have := h (keywords, answer) (List.mem_cons_self _ _) keyword hk
        rw [hinc] at this
        cases this
    · have hfalse : keywords.any (fun keyword => includes message keyword) = false := by
        simpa using hany
      simp only [Chatbot.firstMatch, hfalse]
      rw [show (if false = true then answer else Chatbot.firstMatch rest fallback message) =
        Chatbot.firstMatch rest fallback message from rfl, hrest]
      constructor
      · intro h r hr
        rcases List.mem_cons.mp hr with rfl | hr
        · intro keyword hk
          exact (List.any_eq_false.mp hfalse) keyword hk |> fun h => by simpa using h
        · exact h r hr
      · intro h r hr
        exact h r (List.mem_cons_of_mem _ hr)

theorem rules_answers_ne_default : ∀ rule ∈ Chatbot.rules, rule.2 ≠ Chatbot.defaultAnswer := by
  decide

/-! ## Lemmas on refused writes -/

theorem handleAddToCart_refused (product : Product) (quantity : Int)
    (localStorage : LocalStorage) (cart : Cart) (hread : storedCart localStorage = some cart)
    (hw : localStorage.writable = false) :
    ProductDetailsPage.handleAddToCart product quantity localStorage =
      .error .quotaExceeded := by
  unfold storedCart at hread
  unfold ProductDetailsPage.handleAddToCart
  split at hread
  · next c hc => simp [hc, setItem_refused _ _ hw]
  · cases hread

theorem updateQuantity_refused (productId : Key) (n : Int) (page : CartPage) (hn : 1 ≤ n)
    (hw : page.localStorage.writable = false) :
    CartPage.updateQuantity productId n page =
      { page := { cartItems := page.cartItems.map (fun item =>
                    if item.id == productId then { item with quantity := n } else item),
                  localStorage := page.localStorage },
        raised := some .quotaExceeded } := by
  have hlt : ¬ n < 1 := by omega
  simp [CartPage.updateQuantity, hlt, setItem_refused _ _ hw]

theorem removeItem_refused (productId : Key) (page : CartPage)
    (hw : page.localStorage.writable = false) :
    CartPage.removeItem productId page =
      { page := { cartItems := page.cartItems.filter (fun item => item.id != productId),
                  localStorage := page.localStorage },
        raised := some .quotaExceeded } := by
  simp [CartPage.removeItem, setItem_refused _ _ hw]

theorem updateQuantity_raised (productId : Key) (n : Int) (page : CartPage) (hn : 1 ≤ n) :
    (CartPage.updateQuantity productId n page).raised =
      if page.localStorage.writable = true then none else some .quotaExceeded := by
  cases hw : page.localStorage.writable
  · rw [updateQuantity_refused productId n page hn hw]
    rfl
  · rw [(updateQuantity_stored productId n page hn hw).2]
    rfl

theorem removeItem_raised (productId : Key) (page : CartPage) :
    (CartPage.removeItem productId page).raised =
      if page.localStorage.writable = true then none else some .quotaExceeded := by
  cases hw : page.localStorage.writable
  · rw [removeItem_refused productId page hw]
    rfl
  · rw [(removeItem_stored productId page hw).2]
    rfl

theorem handleAddToCart_one_by_storage (product : Product) (localStorage : LocalStorage)
    (cart : Cart) (hread : storedCart localStorage = some cart) :
    ProductDetailsPage.handleAddToCart product 1 localStorage =
      if localStorage.writable = true then
        .ok { localStorage with cart := some (.items (mergeIntoCart product 1 cart)) }
      else .error .quotaExceeded := by
  by_cases hw : localStorage.writable = true
  · rw [if_pos hw, handleAddToCart_ok product 1 localStorage cart hread hw]
  · rw [if_neg hw, handleAddToCart_refused product 1 localStorage cart hread (by simpa using hw)]

theorem updateQuantity_stored_length (productId : Key) (n : Int) (s : CartPage)
    (hsame : storedCart s.localStorage = some s.cartItems) :
    ∃ after, storedCart (CartPage.updateQuantity productId n s).page.localStorage = some after ∧
      after.length = s.cartItems.length := by
  by_cases hn : n < 1
  · refine ⟨s.cartItems, ?_, rfl⟩
    simp [CartPage.updateQuantity, hn, hsame]
  · have hge : 1 ≤ n := by omega
    cases hw : s.localStorage.writable
    · refine ⟨s.cartItems, ?_, rfl⟩
      rw [updateQuantity_refused productId n s hge hw]
      exact hsame
    · refine ⟨(CartPage.updateQuantity productId n s).page.cartItems, ?_,
        updateQuantity_length productId n s⟩
      rw [(updateQuantity_stored productId n s hge hw).1]
      rfl

/-! ## Claims -/

/-- C1. Uniqueness is an invariant of every reachable state: from the empty
session, after any finite sequence of add (from either product page), cart page
mount, updateQuantity, remove and clear, the slot reads as a cart with at most
one line item per id and so does the React state of the cart page, whether or
not the storage accepts writes; and any sequence of adds alone, applied to the
empty cart, gives a cart with at most one line item per id. -/
theorem C1_unique_ids_reachable :
    (∀ (writable : Bool) (ops : List CartOp),
      (∃ cart, storedCart (run ops (emptySession writable)).localStorage = some cart ∧
        ∀ id : Key, countId id cart ≤ 1) ∧
      ∀ id : Key, countId id (run ops (emptySession writable)).cartItems ≤ 1) ∧
    (∀ (adds : List (Product × Int)) (id : Key),
      countId id (adds.foldl (fun acc a => mergeIntoCart a.1 a.2 acc) []) ≤ 1) :=
  ⟨fun writable ops => sessionInv_run ops _ (sessionInv_emptySession writable),
   fun adds id => uniqueIds_adds adds [] uniqueIds_nil id⟩

/-- C2. Additive merge: on a cart with unique ids that has no item with the id
of `P`, `add(P, a)` followed by `add(P2, b)`, where `P2` has the id of `P` and
`a, b ≥ 1`, gives the old cart followed by one line item whose fields are those
of `P` and whose quantity is `a + b`; that item is the only one with this id, its
price is `P.price`, ids stay unique, and the two handler calls store exactly
this cart when the slot held `cart` and the storage accepts writes. -/
theorem C2_additive_merge (cart : Cart) (P P2 : Product) (a b : Int)
    (huniq : UniqueIds cart) (habs : ∀ item ∈ cart, item.id ≠ P.id) (hid : P2.id = P.id)
    (_ha : 1 ≤ a) (_hb : 1 ≤ b) :
    mergeIntoCart P2 b (mergeIntoCart P a cart) = cart ++ [newLineItem P (a + b)] ∧
    countId P.id (mergeIntoCart P2 b (mergeIntoCart P a cart)) = 1 ∧
    (∀ item ∈ mergeIntoCart P2 b (mergeIntoCart P a cart), item.id = P.id →
      item.quantity = a + b ∧ item.price = P.price) ∧
    UniqueIds (mergeIntoCart P2 b (mergeIntoCart P a cart)) ∧
    (∀ localStorage : LocalStorage, storedCart localStorage = some cart →
      localStorage.writable = true →
      ∃ first second,
        ProductDetailsPage.handleAddToCart P a localStorage = .ok first ∧
        ProductDetailsPage.handleAddToCart P2 b first = .ok second ∧
        storedCart second = some (cart ++ [newLineItem P (a + b)])) := by
  have hfirst : mergeIntoCart P a cart = cart ++ [newLineItem P a] :=
    mergeIntoCart_absent P a cart habs
  have hboth : mergeIntoCart P2 b (mergeIntoCart P a cart) = cart ++ [newLineItem P (a + b)] := by
    rw [hfirst]
    exact mergeIntoCart_split P2 b cart [] (newLineItem P a)
      (fun x hx => by rw [hid]; exact habs x hx) hid.symm
  refine ⟨hboth, ?_, ?_, ?_, ?_⟩
  · rw [hboth, countId_append, countId_eq_zero P.id cart habs, countId_cons]
    simp [newLineItem, countId]
  · intro item hmem hitem
    rw [hboth] at hmem
    rcases List.mem_append.mp hmem with hc | hn
    · exact absurd hitem (habs item hc)
    · have : item = newLineItem P (a + b) := by simpa using hn
      subst this
      exact ⟨rfl, rfl⟩
  · exact uniqueIds_mergeIntoCart _ _ _ (uniqueIds_mergeIntoCart _ _ _ huniq)
  · intro localStorage hread hw
    obtain ⟨first, second, h1, h2, h3⟩ := handleAddToCart_twice P P2 a b localStorage cart hread hw
    exact ⟨first, second, h1, h2, by rw [h3, hboth]⟩

/-- Witness of C2 in the cart of two socks: `add(shoe, 2)` then `add(shoeRepriced, 3)`
leaves one shoe line with quantity 5 at the first price 1200. -/
theorem C2_additive_merge_witness :
    UniqueIds sockCart ∧ (∀ item ∈ sockCart, item.id ≠ shoe.id) ∧ shoeRepriced.id = shoe.id ∧
    (1 : Int) ≤ 2 ∧ (1 : Int) ≤ 3 ∧
    mergeIntoCart shoeRepriced 3 (mergeIntoCart shoe 2 sockCart) =
      sockCart ++ [{ id := .str "p1", name := "Shoe", price := 1200, imageUrl := none,
                     quantity := 5, stockQuantity := 5 }] :=
  ⟨(uniqueIds_iff_nodup sockCart).mpr (by decide), by decide, by decide, by decide, by decide,
   (C2_additive_merge sockCart shoe shoeRepriced 2 3
      ((uniqueIds_iff_nodup sockCart).mpr (by decide)) (by decide) (by decide)
      (by decide) (by decide)).1⟩

/-- C3. Adding a product that is already in the cart only changes one quantity:
the cart splits as `pre ++ item :: post` with `item` the first item having the
product id, and the result is `pre`, then `item` with its quantity increased by
exactly `q` and its stored id, name, price, imageUrl and stockQuantity kept, then
`post`; the length is unchanged. Both handlers store this cart (the list page
with `q = 1`) when the slot held `cart` and the storage accepts writes. -/
theorem C3_add_existing_changes_quantity_only (cart : Cart) (product : Product) (q : Int)
    (h : ∃ item ∈ cart, item.id = product.id) :
    (∃ pre item post, cart = pre ++ item :: post ∧ (∀ x ∈ pre, x.id ≠ product.id) ∧
      item.id = product.id ∧
      mergeIntoCart product q cart =
        pre ++ { id := item.id, name := item.name, price := item.price,
                 imageUrl := item.imageUrl, quantity := item.quantity + q,
                 stockQuantity := item.stockQuantity } :: post) ∧
    (mergeIntoCart product q cart).length = cart.length ∧
    (∀ localStorage : LocalStorage, storedCart localStorage = some cart →
      localStorage.writable = true →
      ProductDetailsPage.handleAddToCart product q localStorage =
        .ok { localStorage with cart := some (.items (mergeIntoCart product q cart)) } ∧
      ProductListPage.handleAddToCart product localStorage =
        .ok { localStorage with cart := some (.items (mergeIntoCart product 1 cart)) }) := by
  obtain ⟨pre, item, post, hsplit, hpre, hitem, hmerge⟩ := mergeIntoCart_present product cart h
  refine ⟨⟨pre, item, post, hsplit, hpre, hitem, hmerge q⟩, ?_, ?_⟩
  · rw [hmerge q, hsplit]
    simp
  · intro localStorage hread hw
    exact ⟨handleAddToCart_ok product q localStorage cart hread hw, by
      rw [listPage_handleAddToCart_eq]
      exact handleAddToCart_ok product 1 localStorage cart hread hw⟩

/-- Witness of C3: adding 3 of the repriced shoe to the cart of one shoe and two
socks leaves name, price and stock of the stored shoe line as they were. -/
theorem C3_add_existing_changes_quantity_only_witness :
    (∃ item ∈ shoeSockCart, item.id = shoeRepriced.id) ∧
    mergeIntoCart shoeRepriced 3 shoeSockCart =
      [{ id := .str "p1", name := "Shoe", price := 1200, imageUrl := none,
         quantity := 4, stockQuantity := 5 },
       { id := .str "p2", name := "Sock", price := 300, imageUrl := some "sock.png",
         quantity := 2, stockQuantity := 9 }] ∧
    (mergeIntoCart shoeRepriced 3 shoeSockCart).length = shoeSockCart.length :=
  ⟨by decide, by decide,
   (C3_add_existing_changes_quantity_only shoeSockCart shoeRepriced 3 (by decide)).2.1⟩

/-- C4. Adding a product that is not in the cart appends: the result is the old
cart followed by exactly one item with the six keys, `id`, `name`, `price`,
`imageUrl` and `stockQuantity` copied from the product and `quantity = q`; the
handler stores this cart when the slot held `cart` and the storage accepts
writes; and adding products with pairwise distinct ids to the empty cart gives
their ids in the order of the adds. -/
theorem C4_add_new_appends (cart : Cart) (product : Product) (q : Int)
    (h : ∀ item ∈ cart, item.id ≠ product.id) :
    mergeIntoCart product q cart =
      cart ++ [{ id := product.id, name := product.name, price := product.price,
                 imageUrl := product.imageUrl, quantity := q,
                 stockQuantity := product.stockQuantity }] ∧
    (∀ localStorage : LocalStorage, storedCart localStorage = some cart →
      localStorage.writable = true →
      ProductDetailsPage.handleAddToCart product q localStorage =
        .ok { localStorage with cart := some (.items (mergeIntoCart product q cart)) }) ∧
    (∀ adds : List (Product × Int), (adds.map (fun a => a.1.id)).Nodup →
      (adds.foldl (fun acc a => mergeIntoCart a.1 a.2 acc) []).map LineItem.id =
        adds.map (fun a => a.1.id)) := by
  refine ⟨mergeIntoCart_absent product q cart h, ?_, ?_⟩
  · intro localStorage hread hw
    exact handleAddToCart_ok product q localStorage cart hread hw
  · intro adds hnodup
    have := ids_adds adds [] (by simpa using hnodup)
    simpa using this

/-- Witness of C4: adding two shoes to the cart of two socks puts the shoe line last. -/
theorem C4_add_new_appends_witness :
    (∀ item ∈ sockCart, item.id ≠ shoe.id) ∧
    mergeIntoCart shoe 2 sockCart =
      [{ id := .str "p2", name := "Sock", price := 300, imageUrl := some "sock.png",
         quantity := 2, stockQuantity := 9 },
       { id := .str "p1", name := "Shoe", price := 1200, imageUrl := none,
         quantity := 2, stockQuantity := 5 }] :=
  ⟨by decide, (C4_add_new_appends sockCart shoe 2 (by decide)).1⟩

/-- C5, as stated, fails: a `-` click at quantity 1 asks for 0, the selector keeps
1, and the add that follows raises when the storage refuses the write, and
raises when the slot content is unparsable; so an add with a requested quantity
below 1 can fail. -/
theorem C5_clamped_add_fails_counterexample :
    (1 : Int) - 1 < 1 ∧
    ProductDetailsPage.selectorStep 5 1 .minus = 1 ∧
    ProductDetailsPage.handleAddToCart shoe (ProductDetailsPage.selectorStep 5 1 .minus)
      (fullStorageWith sockCart) = .error .quotaExceeded ∧
    ProductDetailsPage.handleAddToCart shoe (ProductDetailsPage.selectorStep 5 1 .minus)
      { cart := some .malformed, writable := true } = .error .syntaxError :=
  ⟨by decide, by decide, rfl, rfl⟩

/-- C5, amended. A requested quantity below 1 is clamped by the quantity selector
before the add. For every selector value `quantity` whose `-` click asks for
`quantity - 1 < 1`, the selector keeps `Math.max(1, quantity - 1) = 1`, so the
add that follows is exactly `add(product, 1)`: a product not in the cart is
appended with quantity 1, and for a product in the cart the first item with its
id gets its quantity increased by 1. The add fails only through the storage: it
raises a `SyntaxError` on unparsable slot content, a `TypeError` on content
that parses to a truthy non-list value, and the exception of `setItem` when the
slot reads as a cart and the write is refused; when the slot reads as a cart
and the write is accepted it does not fail. -/
theorem C5_request_below_one_clamped (stockQuantity quantity : Int) (product : Product)
    (localStorage : LocalStorage) (hrequest : quantity - 1 < 1) :
    ProductDetailsPage.selectorStep stockQuantity quantity .minus = 1 ∧
    ProductDetailsPage.handleAddToCart product
        (ProductDetailsPage.selectorStep stockQuantity quantity .minus) localStorage =
      ProductDetailsPage.handleAddToCart product 1 localStorage ∧
    (∀ cart, (∀ item ∈ cart, item.id ≠ product.id) →
      mergeIntoCart product 1 cart = cart ++ [newLineItem product 1]) ∧
    (∀ cart, (∃ item ∈ cart, item.id = product.id) →
      ∃ pre item post, cart = pre ++ item :: post ∧ (∀ x ∈ pre, x.id ≠ product.id) ∧
        item.id = product.id ∧
        mergeIntoCart product 1 cart =
          pre ++ { item with quantity := item.quantity + 1 } :: post) ∧
    (localStorage.cart = some .malformed →
      ProductDetailsPage.handleAddToCart product 1 localStorage = .error .syntaxError) ∧
    (∀ lengthZero, localStorage.cart = some (.truthy lengthZero) →
      ProductDetailsPage.handleAddToCart product 1 localStorage = .error .typeError) ∧
    (∀ cart, storedCart localStorage = some cart →
      ProductDetailsPage.handleAddToCart product 1 localStorage =
        if localStorage.writable = true then
          .ok { localStorage with cart := some (.items (mergeIntoCart product 1 cart)) }
        else .error .quotaExceeded) := by
  have hclamp : ProductDetailsPage.selectorStep stockQuantity quantity .minus = 1 := by
    simp only [ProductDetailsPage.selectorStep]
    exact max_eq_left (by omega)
  refine ⟨hclamp, by rw [hclamp], fun cart habs => mergeIntoCart_absent product 1 cart habs,
    ?_, ?_, ?_, fun cart hread => handleAddToCart_one_by_storage product localStorage cart hread⟩
  · intro cart hex
    obtain ⟨pre, item, post, hsplit, hpre, hitem, hmerge⟩ := mergeIntoCart_present product cart hex
    exact ⟨pre, item, post, hsplit, hpre, hitem, hmerge 1⟩
  · intro hslot
    simp [ProductDetailsPage.handleAddToCart, LocalStorage.parseCart, hslot]
  · intro lengthZero hslot
    simp [ProductDetailsPage.handleAddToCart, LocalStorage.parseCart, hslot]

/-- Witness of the amended C5: the `-` click at quantity 1 with 5 in stock, then the
add of a shoe to the stored cart of two socks. -/
theorem C5_request_below_one_clamped_witness :
    (1 : Int) - 1 < 1 ∧
    ProductDetailsPage.selectorStep 5 1 .minus = 1 ∧
    ProductDetailsPage.handleAddToCart shoe (ProductDetailsPage.selectorStep 5 1 .minus)
        (storageWith sockCart) =
      ProductDetailsPage.handleAddToCart shoe 1 (storageWith sockCart) :=
  ⟨by decide, (C5_request_below_one_clamped 5 1 shoe (storageWith sockCart) (by decide)).1,
   (C5_request_below_one_clamped 5 1 shoe (storageWith sockCart) (by decide)).2.1⟩

/-- C6. `updateQuantity` is an absolute set: on a cart with unique ids that holds
an item with id `productId`, and for `newQuantity ≥ 1`, the cart splits as
`pre ++ item :: post` around that item, no other item has the id, and the new
React state is `pre`, the item with `quantity = newQuantity` and every other
field kept, then `post`: same length, same order, other items unchanged. When
the storage accepts the write the same cart is persisted and nothing is raised. -/
theorem C6_updateQuantity_absolute_set (page : CartPage) (productId : Key) (newQuantity : Int)
    (huniq : UniqueIds page.cartItems)
    (hmem : ∃ item ∈ page.cartItems, item.id = productId) (hn : 1 ≤ newQuantity) :
    (∃ pre item post, page.cartItems = pre ++ item :: post ∧ item.id = productId ∧
      (∀ x ∈ pre ++ post, x.id ≠ productId) ∧
      (CartPage.updateQuantity productId newQuantity page).page.cartItems =
        pre ++ { id := item.id, name := item.name, price := item.price,
                 imageUrl := item.imageUrl, quantity := newQuantity,
                 stockQuantity := item.stockQuantity } :: post) ∧
    (CartPage.updateQuantity productId newQuantity page).page.cartItems.length =
      page.cartItems.length ∧
    (page.localStorage.writable = true →
      (CartPage.updateQuantity productId newQuantity page).page.localStorage =
        { page.localStorage with cart := some (.items
            (CartPage.updateQuantity productId newQuantity page).page.cartItems) } ∧
      (CartPage.updateQuantity productId newQuantity page).raised = none) := by
  refine ⟨?_, ?_, updateQuantity_stored productId newQuantity page hn⟩
  · obtain ⟨item, hitem, hid⟩ := hmem
    obtain ⟨pre, post, hsplit⟩ := List.append_of_mem hitem
    have hothers : ∀ x ∈ pre ++ post, x.id ≠ productId := by
      have := absent_of_unique_split pre post item (hsplit ▸ huniq)
      rwa [hid] at this
    refine ⟨pre, item, post, hsplit, hid, hothers, ?_⟩
    rw [updateQuantity_cartItems productId newQuantity page hn, hsplit, List.map_append,
      List.map_cons,
      map_setQuantity_absent productId newQuantity pre
        (fun x hx => hothers x (List.mem_append_left _ hx)),
      map_setQuantity_absent productId newQuantity post
        (fun x hx => hothers x (List.mem_append_right _ hx))]
    simp [hid]
  · rw [updateQuantity_cartItems productId newQuantity page hn, List.length_map]

/-- Witness of C6: setting the shoe line of the shoe-and-socks cart to 3. -/
theorem C6_updateQuantity_absolute_set_witness :
    UniqueIds shoeSockCart ∧ (∃ item ∈ shoeSockCart, item.id = Key.str "p1") ∧ (1 : Int) ≤ 3 ∧
    (CartPage.updateQuantity (.str "p1") 3
        { cartItems := shoeSockCart, localStorage := storageWith shoeSockCart }).page.cartItems
      = [{ id := .str "p1", name := "Shoe", price := 1200, imageUrl := none,
           quantity := 3, stockQuantity := 5 },
         { id := .str "p2", name := "Sock", price := 300, imageUrl := some "sock.png",
           quantity := 2, stockQuantity := 9 }] ∧
    (CartPage.updateQuantity (.str "p1") 3
        { cartItems := shoeSockCart,
          localStorage := storageWith shoeSockCart }).page.cartItems.length
      = shoeSockCart.length :=
  ⟨(uniqueIds_iff_nodup shoeSockCart).mpr (by decide), by decide, by decide, by decide,
   (C6_updateQuantity_absolute_set
      { cartItems := shoeSockCart, localStorage := storageWith shoeSockCart } (.str "p1") 3
      ((uniqueIds_iff_nodup shoeSockCart).mpr (by decide)) (by decide) (by decide)).2.1⟩

/-- C7. `updateQuantity` with `newQuantity < 1` is a no-op: the handler returns
at once, so the React state and the storage are exactly what they were (the
item is neither modified nor removed, nothing is written) and nothing is
raised; in particular for `newQuantity = 0`. -/
theorem C7_updateQuantity_below_one_noop (page : CartPage) (productId : Key) (n : Int)
    (hn : n < 1) :
    CartPage.updateQuantity productId n page = { page := page, raised := none } ∧
    CartPage.updateQuantity productId 0 page = { page := page, raised := none } := by
  constructor
  · simp [CartPage.updateQuantity, hn]
  · simp [CartPage.updateQuantity]

/-- Witness of C7: `updateQuantity("p1", 0)` on the shoe-and-socks cart. -/
theorem C7_updateQuantity_below_one_noop_witness :
    (0 : Int) < 1 ∧
    CartPage.updateQuantity (.str "p1") 0
        { cartItems := shoeSockCart, localStorage := storageWith shoeSockCart } =
      { page := { cartItems := shoeSockCart, localStorage := storageWith shoeSockCart },
        raised := none } :=
  ⟨by decide,
   (C7_updateQuantity_below_one_noop
      { cartItems := shoeSockCart, localStorage := storageWith shoeSockCart } (.str "p1") 0
      (by decide)).1⟩

/-- C8, as stated, fails: `updateQuantity("p1", 4)` on the cart of two socks, which
has no item `p1`, raises the exception of `setItem` when the storage refuses
the write. -/
theorem C8_unknown_id_raises_counterexample :
    (∀ item ∈ sockCart, item.id ≠ Key.str "p1") ∧ (1 : Int) ≤ 4 ∧
    (CartPage.updateQuantity (.str "p1") 4
      { cartItems := sockCart, localStorage := fullStorageWith sockCart }).raised =
      some .quotaExceeded :=
  ⟨by decide, by decide, rfl⟩

/-- C8, amended. `updateQuantity` on an unknown id is a no-op on the cart: when no
item has id `productId` and `newQuantity ≥ 1`, the cart it returns (the new
React state) is the input cart, item for item. It still writes that cart to the
slot: it raises exactly when `setItem` refuses the write, with the exception of
`setItem` and the slot left as it was, and otherwise it raises nothing and the
slot then reads as that same cart. -/
theorem C8_unknown_id_keeps_cart (page : CartPage) (productId : Key)
    (newQuantity : Int) (habs : ∀ item ∈ page.cartItems, item.id ≠ productId)
    (hn : 1 ≤ newQuantity) :
    (CartPage.updateQuantity productId newQuantity page).page.cartItems = page.cartItems ∧
    (CartPage.updateQuantity productId newQuantity page).raised =
      (if page.localStorage.writable = true then none else some .quotaExceeded) ∧
    (page.localStorage.writable = true →
      storedCart (CartPage.updateQuantity productId newQuantity page).page.localStorage =
        some page.cartItems) ∧
    (page.localStorage.writable = false →
      (CartPage.updateQuantity productId newQuantity page).page.localStorage =
        page.localStorage) := by
  have hcart : (CartPage.updateQuantity productId newQuantity page).page.cartItems =
      page.cartItems := by
    rw [updateQuantity_cartItems productId newQuantity page hn,
      map_setQuantity_absent productId newQuantity page.cartItems habs]
  refine ⟨hcart, updateQuantity_raised productId newQuantity page hn, fun hw => ?_, fun hw => ?_⟩
  · rw [(updateQuantity_stored productId newQuantity page hn hw).1, hcart]
    rfl
  · rw [updateQuantity_refused productId newQuantity page hn hw]

/-- Witness of the amended C8: `updateQuantity("p1", 4)` on the cart of two socks,
with a storage that accepts the write and with one that refuses it. -/
theorem C8_unknown_id_keeps_cart_witness :
    (∀ item ∈ sockCart, item.id ≠ Key.str "p1") ∧ (1 : Int) ≤ 4 ∧
    (CartPage.updateQuantity (.str "p1") 4
        { cartItems := sockCart, localStorage := storageWith sockCart }).page.cartItems =
      sockCart ∧
    (CartPage.updateQuantity (.str "p1") 4
        { cartItems := sockCart, localStorage := storageWith sockCart }).raised = none ∧
    (CartPage.updateQuantity (.str "p1") 4
        { cartItems := sockCart, localStorage := fullStorageWith sockCart }).page.cartItems =
      sockCart :=
  ⟨by decide, by decide,
   (C8_unknown_id_keeps_cart
      { cartItems := sockCart, localStorage := storageWith sockCart } (.str "p1") 4
      (by decide) (by decide)).1,
   (C8_unknown_id_keeps_cart
      { cartItems := sockCart, localStorage := storageWith sockCart } (.str "p1") 4
      (by decide) (by decide)).2.1,
   (C8_unknown_id_keeps_cart
      { cartItems := sockCart, localStorage := fullStorageWith sockCart } (.str "p1") 4
      (by decide) (by decide)).1⟩

/-- C9. `removeItem` deletes exactly the keyed items: the cart it returns is the
input cart filtered on `id ≠ productId`; it has no item with that id, its items
are exactly the input items with another id, each unchanged and in the same
relative order. When the storage accepts the write that cart is persisted and
nothing is raised. -/
theorem C9_removeItem_deletes_keyed_item (page : CartPage) (productId : Key) :
    (CartPage.removeItem productId page).page.cartItems =
      page.cartItems.filter (fun item => decide (item.id ≠ productId)) ∧
    (∀ item ∈ (CartPage.removeItem productId page).page.cartItems, item.id ≠ productId) ∧
    (∀ item, item ∈ (CartPage.removeItem productId page).page.cartItems ↔
      item ∈ page.cartItems ∧ item.id ≠ productId) ∧
    List.Sublist (CartPage.removeItem productId page).page.cartItems page.cartItems ∧
    (page.localStorage.writable = true →
      (CartPage.removeItem productId page).page.localStorage =
        { page.localStorage with cart := some (.items
            (CartPage.removeItem productId page).page.cartItems) } ∧
      (CartPage.removeItem productId page).raised = none) := by
  have hcart := removeItem_cartItems productId page
  refine ⟨?_, ?_, ?_, ?_, removeItem_stored productId page⟩
  · rw [hcart]
    congr 1
    funext item
    by_cases hid : item.id = productId <;> simp [hid]
  · intro item hmem
    rw [hcart] at hmem
    simpa using (List.mem_filter.mp hmem).2
  · intro item
    rw [hcart]
    simp [List.mem_filter]
  · rw [hcart]
    exact List.filter_sublist _

/-- C10, as stated, fails: `removeItem("p1")` on the cart of two socks, which has no
item `p1`, raises the exception of `setItem` when the storage refuses the
write. -/
theorem C10_absent_remove_raises_counterexample :
    (∀ item ∈ sockCart, item.id ≠ Key.str "p1") ∧
    (CartPage.removeItem (.str "p1")
      { cartItems := sockCart, localStorage := fullStorageWith sockCart }).raised =
      some .quotaExceeded :=
  ⟨by decide, rfl⟩

/-- C10, amended. Idempotent remove: when no item has id `productId`, `removeItem`
returns the input cart. It still writes the cart to the slot: it raises exactly
when `setItem` refuses the write, with the exception of `setItem` and the slot
left as it was, and otherwise it raises nothing and the slot then reads as that
cart. For every cart, running `removeItem(productId)` on the state left by a
first `removeItem(productId)` changes nothing: same React state, same storage,
same outcome. -/
theorem C10_remove_idempotent_on_cart (page : CartPage) (productId : Key) :
    ((∀ item ∈ page.cartItems, item.id ≠ productId) →
      (CartPage.removeItem productId page).page.cartItems = page.cartItems ∧
      (page.localStorage.writable = true →
        storedCart (CartPage.removeItem productId page).page.localStorage =
          some page.cartItems)) ∧
    (CartPage.removeItem productId page).raised =
      (if page.localStorage.writable = true then none else some .quotaExceeded) ∧
    (page.localStorage.writable = false →
      (CartPage.removeItem productId page).page.localStorage = page.localStorage) ∧
    CartPage.removeItem productId (CartPage.removeItem productId page).page =
      CartPage.removeItem productId page := by
  refine ⟨?_, removeItem_raised productId page, fun hw => ?_, ?_⟩
  · intro habs
    have hcart : (CartPage.removeItem productId page).page.cartItems = page.cartItems := by
      rw [removeItem_cartItems, filter_absent productId page.cartItems habs]
    refine ⟨hcart, fun hw => ?_⟩
    rw [(removeItem_stored productId page hw).1, hcart]
    rfl
  · rw [removeItem_refused productId page hw]
  · cases hw : page.localStorage.writable
    · simp [CartPage.removeItem, setItem_refused _ _ hw, List.filter_filter]
    · simp [CartPage.removeItem, setItem_writable _ _ hw, LocalStorage.setItem, hw,
        List.filter_filter]

/-- Witness of the amended C10: removing the absent id `p1` from the cart of two
socks, and removing `p2` twice from the shoe-and-socks cart. -/
theorem C10_remove_idempotent_on_cart_witness :
    (∀ item ∈ sockCart, item.id ≠ Key.str "p1") ∧
    (CartPage.removeItem (.str "p1")
        { cartItems := sockCart, localStorage := storageWith sockCart }).page.cartItems =
      sockCart ∧
    CartPage.removeItem (.str "p2")
        (CartPage.removeItem (.str "p2")
          { cartItems := shoeSockCart, localStorage := storageWith shoeSockCart }).page =
      CartPage.removeItem (.str "p2")
        { cartItems := shoeSockCart, localStorage := storageWith shoeSockCart } :=
  ⟨by decide,
   ((C10_remove_idempotent_on_cart
      { cartItems := sockCart, localStorage := storageWith sockCart } (.str "p1")).1
      (by decide)).1,
   (C10_remove_idempotent_on_cart
      { cartItems := shoeSockCart, localStorage := storageWith shoeSockCart }
      (.str "p2")).2.2.2⟩

/-- C11. Clear completeness: after `clearCart()` the React state is the empty
cart, the slot is erased, nothing is raised, a read of the storage gives the
empty cart (and `loadCart` leaves the state as it is), and the total computed
over it is 0, shown as `0.00`. -/
theorem C11_clear_completeness (page : CartPage) :
    (CartPage.clearCart page).page.cartItems = [] ∧
    (CartPage.clearCart page).page.localStorage.cart = none ∧
    (CartPage.clearCart page).raised = none ∧
    (CartPage.clearCart page).page.localStorage.parseCart = .ok (.array []) ∧
    CartPage.loadCart (CartPage.clearCart page).page =
      { page := (CartPage.clearCart page).page, raised := none } ∧
    cartSum (CartPage.clearCart page).page.cartItems = 0 ∧
    CartPage.calculateTotal (CartPage.clearCart page).page.cartItems = .decimal "0.00" := by
  refine ⟨rfl, rfl, rfl, rfl, rfl, rfl, ?_⟩
  show CartPage.calculateTotal [] = .decimal "0.00"
  decide!

/-- C12, as stated, fails: for one item priced 0.125 the exact sum is 1/8, and
`calculateTotal` returns the text `0.13` on both pages, whose value 13/100 is
not the sum; for the example items of the claim it returns the text `249.50`,
not the number 249.5. -/
theorem C12_total_counterexample :
    cartSum eighthCart = 1 / 8 ∧
    CartPage.calculateTotal eighthCart = .decimal "0.13" ∧
    PaymentPage.calculateTotal eighthCart = .decimal "0.13" ∧
    (nearestHundredth (cartSum eighthCart) : ℚ) / 100 ≠ cartSum eighthCart ∧
    cartSum exampleTotalCart = 249.5 ∧
    CartPage.calculateTotal exampleTotalCart = .decimal "249.50" := by
  refine ⟨by decide!, by decide!, by decide!, by decide!, ?_, by decide!⟩
  norm_num [cartSum, exampleTotalCart]

/-- C12, amended. On both pages `calculateTotal` returns the `toFixed(2)` text of
the exact sum of `price × quantity` over all items; the sum itself is not
returned. For a non-negative sum the hundredths written are within 1/200 of the
exact sum, and they are the exact sum whenever that is a whole number of
hundredths. -/
theorem C12_total_is_rendered_sum (cart : Cart) :
    CartPage.calculateTotal cart = toFixed2 (cartSum cart) ∧
    PaymentPage.calculateTotal cart = toFixed2 (cartSum cart) ∧
    (0 ≤ cartSum cart →
      |(nearestHundredth (cartSum cart) : ℚ) / 100 - cartSum cart| ≤ 1 / 200) ∧
    (∀ k : ℕ, cartSum cart * 100 = (k : ℚ) →
      (nearestHundredth (cartSum cart) : ℚ) / 100 = cartSum cart) := by
  refine ⟨?_, ?_, nearestHundredth_close (cartSum cart), ?_⟩
  · unfold CartPage.calculateTotal
    rw [foldl_total_zero]
  · unfold PaymentPage.calculateTotal
    rw [foldl_total_zero]
  · intro k hk
    rw [nearestHundredth_exact (cartSum cart) k hk, ← hk]
    ring

/-- Witness of the amended C12 on the example items: the sum 249.5 is 24950
hundredths, so the hundredths written are the exact sum. -/
theorem C12_total_is_rendered_sum_witness :
    cartSum exampleTotalCart * 100 = ((24950 : ℕ) : ℚ) ∧
    (nearestHundredth (cartSum exampleTotalCart) : ℚ) / 100 = cartSum exampleTotalCart :=
  ⟨by norm_num [cartSum, exampleTotalCart],
   (C12_total_is_rendered_sum exampleTotalCart).2.2.2 24950
     (by norm_num [cartSum, exampleTotalCart])⟩

/-- C13. Rounding happens once: the value `calculateTotal` renders is the sum
accumulated from 0 with no rounding on the way, that is the exact sum of
`price × quantity`, also across two parts of a cart; and the rendering is not
that of the sum of rounded line amounts: for two lines of 0.125 the total is
`0.25`, where the rounded lines add up to 0.26. -/
theorem C13_rounding_once :
    (∀ cart : Cart,
      cart.foldl (fun total item => total + item.price * (item.quantity : ℚ)) 0 =
        cartSum cart ∧
      CartPage.calculateTotal cart = toFixed2 (cartSum cart)) ∧
    (∀ a b : Cart, CartPage.calculateTotal (a ++ b) = toFixed2 (cartSum a + cartSum b)) ∧
    CartPage.calculateTotal twoEighthsCart = .decimal "0.25" ∧
    toFixed2 (lineRoundedSum twoEighthsCart) = .decimal "0.26" ∧
    CartPage.calculateTotal twoEighthsCart ≠ toFixed2 (lineRoundedSum twoEighthsCart) := by
  refine ⟨fun cart => ⟨foldl_total_zero cart, ?_⟩, fun a b => ?_, by decide!, by decide!,
    by decide!⟩
  · unfold CartPage.calculateTotal
    rw [foldl_total_zero]
  · unfold CartPage.calculateTotal
    rw [foldl_total_zero, cartSum_append]

/-- C14, as stated, fails: after `add(shoe, 1)`, a mount of the cart page and then
`add(sock, 2)`, as when another tab adds the socks, every quantity is at least 1
and the persisted cart has 2 items while the React state has 1; the click
`updateQuantity("p1", 3)` then writes the React state over the slot, and the
persisted cart has 1 item. -/
theorem C14_stale_update_counterexample :
    QuantityInv (run [.add shoe 1, .load, .add sock 2] (emptySession true)) ∧
    (storedCart (run [.add shoe 1, .load, .add sock 2]
      (emptySession true)).localStorage).map List.length = some 2 ∧
    (run [.add shoe 1, .load, .add sock 2] (emptySession true)).cartItems.length = 1 ∧
    (storedCart (run [.add shoe 1, .load, .add sock 2, .updateQuantity (.str "p1") 3]
      (emptySession true)).localStorage).map List.length = some 1 :=
  ⟨⟨⟨shoeSockCart, rfl, show ∀ item ∈ shoeSockCart, 1 ≤ item.quantity by decide⟩,
     show ∀ item ∈ (run [.add shoe 1, .load, .add sock 2] (emptySession true)).cartItems,
       1 ≤ item.quantity by decide⟩,
   rfl, rfl, rfl⟩

/-- C14, amended. Quantity invariant. In a session whose persisted cart and React
state have all quantities at least 1, every operation (add with `q ≥ 1`, the
list page add, cart page mount, `updateQuantity` with any integer, remove,
clear) leaves both with all quantities at least 1. An add never lowers the
number of items of the persisted cart. `updateQuantity` keeps the number of
items of the React state it acts on, and it keeps the number of items of the
persisted cart whenever the React state is the persisted cart, as it is right
after the cart page has mounted. -/
theorem C14_quantity_invariant (s : CartPage) (hinv : QuantityInv s) :
    (∀ op : CartOp, (∀ product q, op = .add product q → 1 ≤ q) →
      QuantityInv (step op s)) ∧
    (∀ (product : Product) (q : Int) (stored : LocalStorage),
      ProductDetailsPage.handleAddToCart product q s.localStorage = .ok stored →
      ∃ before after, storedCart s.localStorage = some before ∧
        storedCart stored = some after ∧ before.length ≤ after.length) ∧
    (∀ (productId : Key) (n : Int),
      (CartPage.updateQuantity productId n s).page.cartItems.length = s.cartItems.length) ∧
    (storedCart s.localStorage = some s.cartItems →
      ∀ (productId : Key) (n : Int),
        ∃ after,
          storedCart (CartPage.updateQuantity productId n s).page.localStorage = some after ∧
          after.length = s.cartItems.length) := by
  refine ⟨fun op hq => quantityInv_step op s hinv hq, ?_, fun productId n =>
    updateQuantity_length productId n s, fun hsame productId n =>
    updateQuantity_stored_length productId n s hsame⟩
  intro product q stored hok
  obtain ⟨cart, hread, hstored⟩ := handleAddToCart_inv _ _ _ _ hok
  exact ⟨cart, _, hread, hstored, length_le_mergeIntoCart product q cart⟩

/-- Witness of the amended C14: in the session holding the shoe-and-socks cart in
both places, `updateQuantity("p1", 0)` and `add(shoe, 2)` keep every quantity
at least 1, and `updateQuantity("p1", 3)` leaves 2 persisted items. -/
theorem C14_quantity_invariant_witness :
    QuantityInv { cartItems := shoeSockCart, localStorage := storageWith shoeSockCart } ∧
    QuantityInv (step (.updateQuantity (.str "p1") 0)
      { cartItems := shoeSockCart, localStorage := storageWith shoeSockCart }) ∧
    QuantityInv (step (.add shoe 2)
      { cartItems := shoeSockCart, localStorage := storageWith shoeSockCart }) ∧
    (∃ after,
      storedCart (CartPage.updateQuantity (.str "p1") 3
        { cartItems := shoeSockCart,
          localStorage := storageWith shoeSockCart }).page.localStorage = some after ∧
      after.length = shoeSockCart.length) :=
  have hinv : QuantityInv
      { cartItems := shoeSockCart, localStorage := storageWith shoeSockCart } :=
    ⟨⟨shoeSockCart, rfl, show ∀ item ∈ shoeSockCart, 1 ≤ item.quantity by decide⟩,
     show ∀ item ∈ shoeSockCart, 1 ≤ item.quantity by decide⟩
  ⟨hinv,
   (C14_quantity_invariant _ hinv).1 (.updateQuantity (.str "p1") 0)
     (fun _ _ h => by cases h),
   (C14_quantity_invariant _ hinv).1 (.add shoe 2)
     (fun _ _ h => by cases h; decide),
   (C14_quantity_invariant _ hinv).2.2.2 rfl (.str "p1") 3⟩

/-- C15, as stated, fails: on unparsable content the read raises the
`SyntaxError` of `JSON.parse` in the cart page, the header and the add handler;
on content that parses to a truthy non-list value, such as an object, the read
returns that value, not the empty cart, and the header and the add handler then
raise a `TypeError`. -/
theorem C15_corrupt_slot_counterexample :
    LocalStorage.parseCart { cart := some .malformed, writable := true } =
      .error .syntaxError ∧
    (CartPage.loadCart
      { cartItems := [], localStorage := { cart := some .malformed, writable := true } }).raised =
      some .syntaxError ∧
    Header.updateCartCount { cart := some .malformed, writable := true } =
      .error .syntaxError ∧
    ProductDetailsPage.handleAddToCart shoe 1 { cart := some .malformed, writable := true } =
      .error .syntaxError ∧
    LocalStorage.parseCart { cart := some (.truthy false), writable := true } =
      .ok (.nonArray false) ∧
    Header.updateCartCount { cart := some (.truthy false), writable := true } =
      .error .typeError ∧
    ProductDetailsPage.handleAddToCart shoe 1
      { cart := some (.truthy false), writable := true } = .error .typeError :=
  ⟨rfl, rfl, rfl, rfl, rfl, rfl, rfl⟩

/-- C15, amended. Only content that parses to a falsy value (`null`, `false`,
`0`, `""`) reads as the empty cart without raising, in every reader. Unparsable
content makes every reader raise a `SyntaxError` and leaves the cart page state
as it was. Content that parses to a truthy non-list value is returned as it is,
the header count and the add handlers raise a `TypeError` on it, and the cart
page raises one at its next render unless the value is an object of `length` 0. -/
theorem C15_corruption_by_kind (writable : Bool) (cartItems : Cart) (product : Product)
    (q : Int) :
    (LocalStorage.parseCart { cart := some .falsy, writable := writable } =
        .ok (.array []) ∧
      CartPage.loadCart
        { cartItems := cartItems, localStorage := { cart := some .falsy, writable := writable } } =
        { page := { cartItems := [],
                    localStorage := { cart := some .falsy, writable := writable } },
          raised := none } ∧
      Header.updateCartCount { cart := some .falsy, writable := writable } = .ok 0) ∧
    (LocalStorage.parseCart { cart := some .malformed, writable := writable } =
        .error .syntaxError ∧
      CartPage.loadCart
        { cartItems := cartItems,
          localStorage := { cart := some .malformed, writable := writable } } =
        { page := { cartItems := cartItems,
                    localStorage := { cart := some .malformed, writable := writable } },
          raised := some .syntaxError } ∧
      Header.updateCartCount { cart := some .malformed, writable := writable } =
        .error .syntaxError ∧
      ProductDetailsPage.handleAddToCart product q
        { cart := some .malformed, writable := writable } = .error .syntaxError ∧
      ProductListPage.handleAddToCart product
        { cart := some .malformed, writable := writable } = .error .syntaxError) ∧
    (∀ lengthZero : Bool,
      LocalStorage.parseCart { cart := some (.truthy lengthZero), writable := writable } =
        .ok (.nonArray lengthZero) ∧
      Header.updateCartCount { cart := some (.truthy lengthZero), writable := writable } =
        .error .typeError ∧
      ProductDetailsPage.handleAddToCart product q
        { cart := some (.truthy lengthZero), writable := writable } = .error .typeError ∧
      ProductListPage.handleAddToCart product
        { cart := some (.truthy lengthZero), writable := writable } = .error .typeError ∧
      (CartPage.loadCart
        { cartItems := cartItems,
          localStorage := { cart := some (.truthy lengthZero), writable := writable } }).raised =
        if lengthZero then none else some .typeError) := by
  refine ⟨⟨rfl, rfl, rfl⟩, ⟨rfl, rfl, rfl, rfl, rfl⟩, fun lengthZero => ⟨rfl, rfl, rfl, rfl, ?_⟩⟩
  cases lengthZero <;> rfl

/-- C16. An absent slot reads as the empty cart without raising, in every
reader: the read expression, `CartPage.loadCart`, `Header.updateCartCount`, the
mount effect of `PaymentPage` (which then navigates to `/cart`), and both add
handlers, which go on to write the one new line item; an add raises only if
that write is refused. -/
theorem C16_absent_slot_reads_empty (writable : Bool) (cartItems : Cart) (product : Product)
    (q : Int) (payment : PaymentPage) :
    LocalStorage.parseCart { cart := none, writable := writable } = .ok (.array []) ∧
    CartPage.loadCart
      { cartItems := cartItems, localStorage := { cart := none, writable := writable } } =
      { page := { cartItems := [], localStorage := { cart := none, writable := writable } },
        raised := none } ∧
    Header.updateCartCount { cart := none, writable := writable } = .ok 0 ∧
    PaymentPage.mount { payment with localStorage := { cart := none, writable := writable } } =
      ({ payment with
          localStorage := { cart := none, writable := writable }
          cartItems := []
          navigatedTo := some "/cart" }, none) ∧
    ProductDetailsPage.handleAddToCart product q { cart := none, writable := writable } =
      LocalStorage.setItem { cart := none, writable := writable }
        [newLineItem product q] ∧
    ProductListPage.handleAddToCart product { cart := none, writable := writable } =
      LocalStorage.setItem { cart := none, writable := writable }
        [newLineItem product 1] ∧
    ProductDetailsPage.handleAddToCart product q { cart := none, writable := true } =
      .ok { cart := some (.items [newLineItem product q]), writable := true } :=
  ⟨rfl, rfl, rfl, rfl, rfl, rfl, rfl⟩

/-- C17, as stated, fails: with a storage that refuses writes,
`updateQuantity("p1", 3)` on the shoe-and-socks cart produces the quantities 3
and 2 in the React state, while a read of the slot right after it still gives the
quantities 1 and 2. -/
theorem C17_stale_read_counterexample :
    (1 : Int) ≤ 3 ∧
    (CartPage.updateQuantity (.str "p1") 3
        { cartItems := shoeSockCart,
          localStorage := fullStorageWith shoeSockCart }).page.cartItems.map
      LineItem.quantity = [3, 2] ∧
    (storedCart (CartPage.updateQuantity (.str "p1") 3
        { cartItems := shoeSockCart,
          localStorage := fullStorageWith shoeSockCart }).page.localStorage).map
      (fun cart => cart.map LineItem.quantity) = some [1, 2] :=
  ⟨by decide, by decide, by decide⟩

/-- C17, amended. Round-trip when the write is accepted. If `setItem` accepts the
write, then after `add(product, q)` with `q ≥ 1` on a slot that held `existing`
a read returns exactly the merged cart the handler computed, and after
`updateQuantity` with `n ≥ 1` and after `removeItem` a read returns exactly the
cart the operation produced, which is the React state `cartItems`, so that
`loadCart` would change nothing. After `clearCart`, which writes nothing, the
same holds for every storage. If `setItem` refuses the write, the slot keeps
its content: `add` raises and stores nothing, and `updateQuantity` and
`removeItem` change `cartItems` only, so a read returns the slot as it was.
The text written by `JSON.stringify` is taken to parse back to the same line
items. -/
theorem C17_round_trip_when_written (cartItems : Cart) (localStorage : LocalStorage) :
    (localStorage.writable = true →
      (∀ (product : Product) (q : Int) (existing : Cart), 1 ≤ q →
        storedCart localStorage = some existing →
        ∃ stored, ProductDetailsPage.handleAddToCart product q localStorage = .ok stored ∧
          stored.parseCart = .ok (.array (mergeIntoCart product q existing))) ∧
      (∀ (productId : Key) (n : Int), 1 ≤ n →
        (CartPage.updateQuantity productId n
            { cartItems := cartItems, localStorage := localStorage }).page.cartItems =
          cartItems.map (fun item =>
            if item.id == productId then { item with quantity := n } else item) ∧
        (CartPage.updateQuantity productId n
            { cartItems := cartItems,
              localStorage := localStorage }).page.localStorage.parseCart =
          .ok (.array (CartPage.updateQuantity productId n
            { cartItems := cartItems, localStorage := localStorage }).page.cartItems) ∧
        CartPage.loadCart (CartPage.updateQuantity productId n
            { cartItems := cartItems, localStorage := localStorage }).page =
          { page := (CartPage.updateQuantity productId n
              { cartItems := cartItems, localStorage := localStorage }).page,
            raised := none }) ∧
      (∀ productId : Key,
        (CartPage.removeItem productId
            { cartItems := cartItems, localStorage := localStorage }).page.cartItems =
          cartItems.filter (fun item => item.id != productId) ∧
        (CartPage.removeItem productId
            { cartItems := cartItems,
              localStorage := localStorage }).page.localStorage.parseCart =
          .ok (.array (CartPage.removeItem productId
            { cartItems := cartItems, localStorage := localStorage }).page.cartItems) ∧
        CartPage.loadCart (CartPage.removeItem productId
            { cartItems := cartItems, localStorage := localStorage }).page =
          { page := (CartPage.removeItem productId
              { cartItems := cartItems, localStorage := localStorage }).page,
            raised := none })) ∧
    ((CartPage.clearCart
        { cartItems := cartItems, localStorage := localStorage }).page.localStorage.parseCart =
      .ok (.array (CartPage.clearCart
        { cartItems := cartItems, localStorage := localStorage }).page.cartItems) ∧
      CartPage.loadCart (CartPage.clearCart
          { cartItems := cartItems, localStorage := localStorage }).page =
        { page := (CartPage.clearCart
            { cartItems := cartItems, localStorage := localStorage }).page,
          raised := none }) ∧
    (localStorage.writable = false →
      (∀ (product : Product) (q : Int) (existing : Cart),
        storedCart localStorage = some existing →
        ProductDetailsPage.handleAddToCart product q localStorage = .error .quotaExceeded) ∧
      (∀ (productId : Key) (n : Int), 1 ≤ n →
        CartPage.updateQuantity productId n
            { cartItems := cartItems, localStorage := localStorage } =
          { page := { cartItems := cartItems.map (fun item =>
                        if item.id == productId then { item with quantity := n } else item),
                      localStorage := localStorage },
            raised := some .quotaExceeded }) ∧
      (∀ productId : Key,
        CartPage.removeItem productId
            { cartItems := cartItems, localStorage := localStorage } =
          { page := { cartItems := cartItems.filter (fun item => item.id != productId),
                      localStorage := localStorage },
            raised := some .quotaExceeded })) := by
  refine ⟨fun hw => ⟨?_, ?_, ?_⟩, ⟨rfl, rfl⟩, fun hw => ⟨?_, ?_, ?_⟩⟩
  · intro product q existing _ hread
    refine ⟨_, handleAddToCart_ok product q localStorage existing hread hw, rfl⟩
  · intro productId n hn
    have hlt : ¬ n < 1 := by omega
    refine ⟨updateQuantity_cartItems productId n _ hn, ?_, ?_⟩ <;>
      simp [CartPage.updateQuantity, hlt, setItem_writable _ _ hw, LocalStorage.parseCart,
        CartPage.loadCart]
  · intro productId
    refine ⟨removeItem_cartItems productId _, ?_, ?_⟩ <;>
      simp [CartPage.removeItem, setItem_writable _ _ hw, LocalStorage.parseCart,
        CartPage.loadCart]
  · intro product q existing hread
    exact handleAddToCart_refused product q localStorage existing hread hw
  · intro productId n hn
    exact updateQuantity_refused productId n
      { cartItems := cartItems, localStorage := localStorage } hn hw
  · intro productId
    exact removeItem_refused productId
      { cartItems := cartItems, localStorage := localStorage } hw

/-- Witness of the amended C17: after `updateQuantity("p1", 3)` on the
shoe-and-socks cart with an accepted write the slot reads as the cart
produced; with a refused write the storage is what it was. -/
theorem C17_round_trip_when_written_witness :
    (storageWith shoeSockCart).writable = true ∧
    (CartPage.updateQuantity (.str "p1") 3
        { cartItems := shoeSockCart,
          localStorage := storageWith shoeSockCart }).page.localStorage.parseCart =
      .ok (.array (CartPage.updateQuantity (.str "p1") 3
        { cartItems := shoeSockCart, localStorage := storageWith shoeSockCart }).page.cartItems) ∧
    (fullStorageWith shoeSockCart).writable = false ∧
    (CartPage.updateQuantity (.str "p1") 3
        { cartItems := shoeSockCart,
          localStorage := fullStorageWith shoeSockCart }).page.localStorage =
      fullStorageWith shoeSockCart :=
  ⟨rfl,
   (((C17_round_trip_when_written shoeSockCart (storageWith shoeSockCart)).1 rfl).2.1
      (.str "p1") 3 (by decide)).2.1,
   rfl,
   congrArg (fun out : Outcome => out.page.localStorage)
     (((C17_round_trip_when_written shoeSockCart (fullStorageWith shoeSockCart)).2.2 rfl).2.1
       (.str "p1") 3 (by decide))⟩

/-- C18. The end-to-end scenario, for any name, image and stock of the second
product: from the empty session, `add(shoe, 1)`, `add(p2, 2)` with `p2` priced
300, mounting the cart page, `updateQuantity("p1", 3)` and `remove("p2")` leave
exactly one item, `p1` with quantity 3 and price 1200, in the React state and in
the slot; the total over it is 3600, shown as `3600.00`. -/
theorem C18_end_to_end_scenario (name : String) (imageUrl : Option String) (stock : Int) :
    (run [.add shoe 1,
          .add { id := .str "p2", name := name, price := 300, imageUrl := imageUrl,
                 stockQuantity := stock } 2,
          .load, .updateQuantity (.str "p1") 3, .remove (.str "p2")]
        (emptySession true)).cartItems =
      [{ id := .str "p1", name := "Shoe", price := 1200, imageUrl := none,
         quantity := 3, stockQuantity := 5 }] ∧
    storedCart (run [.add shoe 1,
          .add { id := .str "p2", name := name, price := 300, imageUrl := imageUrl,
                 stockQuantity := stock } 2,
          .load, .updateQuantity (.str "p1") 3, .remove (.str "p2")]
        (emptySession true)).localStorage =
      some [{ id := .str "p1", name := "Shoe", price := 1200, imageUrl := none,
              quantity := 3, stockQuantity := 5 }] ∧
    cartSum (run [.add shoe 1,
          .add { id := .str "p2", name := name, price := 300, imageUrl := imageUrl,
                 stockQuantity := stock } 2,
          .load, .updateQuantity (.str "p1") 3, .remove (.str "p2")]
        (emptySession true)).cartItems = 3600 ∧
    CartPage.calculateTotal (run [.add shoe 1,
          .add { id := .str "p2", name := name, price := 300, imageUrl := imageUrl,
                 stockQuantity := stock } 2,
          .load, .updateQuantity (.str "p1") 3, .remove (.str "p2")]
        (emptySession true)).cartItems = .decimal "3600.00" := by
  have hrun : run [.add shoe 1,
          .add { id := .str "p2", name := name, price := 300, imageUrl := imageUrl,
                 stockQuantity := stock } 2,
          .load, .updateQuantity (.str "p1") 3, .remove (.str "p2")]
        (emptySession true) =
      { cartItems := [{ id := .str "p1", name := "Shoe", price := 1200, imageUrl := none,
                        quantity := 3, stockQuantity := 5 }],
        localStorage := storageWith [{ id := .str "p1", name := "Shoe", price := 1200,
                                       imageUrl := none, quantity := 3, stockQuantity := 5 }] } := by
    rfl
  rw [hrun]
  refine ⟨rfl, rfl, ?_, by decide!⟩
  norm_num [cartSum]

/-- C19, as stated, fails: with a storage that refuses writes,
`updateQuantity("p1", 3)`, `removeItem("p2")` and `add(shoe, 1)` each raise the
exception of `setItem` to their caller. -/
theorem C19_write_failure_counterexample :
    (fullStorageWith shoeSockCart).writable = false ∧
    (CartPage.updateQuantity (.str "p1") 3
      { cartItems := shoeSockCart, localStorage := fullStorageWith shoeSockCart }).raised =
      some .quotaExceeded ∧
    (CartPage.removeItem (.str "p2")
      { cartItems := shoeSockCart, localStorage := fullStorageWith shoeSockCart }).raised =
      some .quotaExceeded ∧
    ProductDetailsPage.handleAddToCart shoe 1 (fullStorageWith shoeSockCart) =
      .error .quotaExceeded :=
  ⟨rfl, rfl, rfl, rfl⟩

/-- C19, amended. A refused write is not swallowed: when `setItem` raises, `add`
(on a slot that reads as a cart), `updateQuantity` with `n ≥ 1` and `removeItem`
raise that exception to their caller and the slot keeps its content. For the
two cart page handlers the change of the React state `cartItems`, made before
the write, is still applied; `add` has no state of its own, so its change is
lost. -/
theorem C19_write_failure_propagates (cartItems : Cart) (localStorage : LocalStorage)
    (hw : localStorage.writable = false) :
    (∀ (product : Product) (q : Int) (existing : Cart),
      storedCart localStorage = some existing →
      ProductDetailsPage.handleAddToCart product q localStorage = .error .quotaExceeded ∧
      ProductListPage.handleAddToCart product localStorage = .error .quotaExceeded) ∧
    (∀ (productId : Key) (n : Int), 1 ≤ n →
      CartPage.updateQuantity productId n
          { cartItems := cartItems, localStorage := localStorage } =
        { page := { cartItems := cartItems.map (fun item =>
                      if item.id == productId then { item with quantity := n } else item),
                    localStorage := localStorage },
          raised := some .quotaExceeded }) ∧
    (∀ productId : Key,
      CartPage.removeItem productId { cartItems := cartItems, localStorage := localStorage } =
        { page := { cartItems := cartItems.filter (fun item => item.id != productId),
                    localStorage := localStorage },
          raised := some .quotaExceeded }) := by
  refine ⟨?_, ?_, ?_⟩
  · intro product q existing hread
    have hadd : ProductDetailsPage.handleAddToCart product q localStorage =
        .error .quotaExceeded := by
      unfold storedCart at hread
      unfold ProductDetailsPage.handleAddToCart
      split at hread
      · next c hc => simp [hc, setItem_refused _ _ hw]
      · cases hread
    have hone : ProductDetailsPage.handleAddToCart product 1 localStorage =
        .error .quotaExceeded := by
      unfold storedCart at hread
      unfold ProductDetailsPage.handleAddToCart
      split at hread
      · next c hc => simp [hc, setItem_refused _ _ hw]
      · cases hread
    exact ⟨hadd, by rw [listPage_handleAddToCart_eq]; exact hone⟩
  · intro productId n hn
    have hlt : ¬ n < 1 := by omega
    simp [CartPage.updateQuantity, hlt, setItem_refused _ _ hw]
  · intro productId
    simp [CartPage.removeItem, setItem_refused _ _ hw]

/-- Witness of the amended C19 on the shoe-and-socks cart with a storage that
refuses writes: `removeItem("p2")` raises, the React state loses the socks, the
slot keeps both lines. -/
theorem C19_write_failure_propagates_witness :
    (fullStorageWith shoeSockCart).writable = false ∧
    CartPage.removeItem (.str "p2")
        { cartItems := shoeSockCart, localStorage := fullStorageWith shoeSockCart } =
      { page := { cartItems := shoeSockCart.filter (fun item => item.id != Key.str "p2"),
                  localStorage := fullStorageWith shoeSockCart },
        raised := some .quotaExceeded } :=
  ⟨rfl, (C19_write_failure_propagates shoeSockCart (fullStorageWith shoeSockCart) rfl).2.2
    (.str "p2")⟩

/-- C20. Payment completion resets the cart: `handlePayment` schedules one
timeout and leaves the storage as it is; when the callback runs, on whatever
state the page then has, the slot is erased, so a read returns the empty cart
and the header count computed from it is 0. -/
theorem C20_payment_resets_cart (page : PaymentPage) :
    (PaymentPage.handlePayment page).pendingTimeouts = page.pendingTimeouts + 1 ∧
    (PaymentPage.handlePayment page).processing = true ∧
    (PaymentPage.handlePayment page).localStorage = page.localStorage ∧
    (PaymentPage.paymentTimeout (PaymentPage.handlePayment page)).localStorage.cart = none ∧
    (PaymentPage.paymentTimeout (PaymentPage.handlePayment page)).localStorage.parseCart =
      .ok (.array []) ∧
    Header.updateCartCount
      (PaymentPage.paymentTimeout (PaymentPage.handlePayment page)).localStorage = .ok 0 ∧
    (PaymentPage.paymentTimeout (PaymentPage.handlePayment page)).pendingTimeouts =
      page.pendingTimeouts ∧
    (PaymentPage.paymentTimeout page).localStorage.cart = none ∧
    Header.updateCartCount (PaymentPage.paymentTimeout page).localStorage = .ok 0 :=
  ⟨rfl, rfl, rfl, rfl, rfl, rfl, Nat.add_sub_cancel .., rfl, rfl⟩

/-- C21. One mutation contract regardless of caller: on every storage the list
page handler gives exactly the result of the details page handler with quantity
1, the same persisted cart or the same exception; and the two `calculateTotal`
functions return the same value on every cart. -/
theorem C21_one_contract (product : Product) (localStorage : LocalStorage) (cart : Cart) :
    ProductListPage.handleAddToCart product localStorage =
      ProductDetailsPage.handleAddToCart product 1 localStorage ∧
    (∀ existing, storedCart localStorage = some existing → localStorage.writable = true →
      ProductListPage.handleAddToCart product localStorage =
        .ok { localStorage with cart := some (.items (mergeIntoCart product 1 existing)) }) ∧
    CartPage.calculateTotal cart = PaymentPage.calculateTotal cart := by
  refine ⟨listPage_handleAddToCart_eq product localStorage, ?_, rfl⟩
  intro existing hread hw
  rw [listPage_handleAddToCart_eq]
  exact handleAddToCart_ok product 1 localStorage existing hread hw

/-- C22. The selector keeps the quantity within stock: for a product with
`stockQuantity ≥ 1`, from the initial value 1 and after any finite sequence of
`-` and `+` clicks, the quantity handed to `handleAddToCart` is at least 1 and
at most `stockQuantity`. -/
theorem C22_selector_within_stock (stockQuantity : Int) (clicks : List SelectorClick)
    (hstock : 1 ≤ stockQuantity) :
    1 ≤ ProductDetailsPage.selectorRun stockQuantity clicks ∧
      ProductDetailsPage.selectorRun stockQuantity clicks ≤ stockQuantity :=
  selectorFold_bounds stockQuantity clicks hstock 1 ⟨le_refl 1, hstock⟩

/-- Witness of C22: with 3 in stock, four `+` clicks and one `-` click give 2. -/
theorem C22_selector_within_stock_witness :
    (1 : Int) ≤ 3 ∧
    ProductDetailsPage.selectorRun 3 [.plus, .plus, .plus, .plus, .minus] = 2 ∧
    1 ≤ ProductDetailsPage.selectorRun 3 [.plus, .plus, .plus, .plus, .minus] ∧
    ProductDetailsPage.selectorRun 3 [.plus, .plus, .plus, .plus, .minus] ≤ 3 :=
  ⟨by decide, by decide,
   C22_selector_within_stock 3 [.plus, .plus, .plus, .plus, .minus] (by decide)⟩

/-- C23. The case `removeFromCart.fulfilled` keeps exactly the items whose id
differs from the payload, in their order, and sets `totalAmount` to the sum of
`price × quantity` over the items kept, leaving `loading` and `error` as they
were; the reducer `clearCart` empties the items and sets `totalAmount` to 0,
leaving `loading` and `error` as they were. -/
theorem C23_cartSlice_remove_and_clear (state : CartSliceState) (itemId : Key) :
    (cartSlice.removeFromCartFulfilled state itemId).items =
      state.items.filter (fun item => decide (item.id ≠ itemId)) ∧
    (cartSlice.removeFromCartFulfilled state itemId).totalAmount =
      cartSum (state.items.filter (fun item => decide (item.id ≠ itemId))) ∧
    (cartSlice.removeFromCartFulfilled state itemId).loading = state.loading ∧
    (cartSlice.removeFromCartFulfilled state itemId).error = state.error ∧
    (cartSlice.clearCart state).items = [] ∧
    (cartSlice.clearCart state).totalAmount = 0 ∧
    (cartSlice.clearCart state).loading = state.loading ∧
    (cartSlice.clearCart state).error = state.error := by
  have hfilter : state.items.filter (fun item => item.id != itemId) =
      state.items.filter (fun item => decide (item.id ≠ itemId)) := by
    congr 1
    funext item
    by_cases hid : item.id = itemId <;> simp [hid]
  refine ⟨hfilter, ?_, rfl, rfl, rfl, rfl, rfl, rfl⟩
  rw [← hfilter]
  exact foldl_total_zero _

/-- C25, as stated, fails: the shoe-and-socks cart counts 3; with a storage that
refuses writes, `add(shoe, 2)` raises and stores nothing, so the count computed
after it is still 3, where the count before plus 2 is 5. -/
theorem C25_count_after_refused_add_counterexample :
    Header.updateCartCount (fullStorageWith shoeSockCart) = .ok 3 ∧
    ProductDetailsPage.handleAddToCart shoe 2 (fullStorageWith shoeSockCart) =
      .error .quotaExceeded ∧
    Header.updateCartCount
      (step (.add shoe 2)
        { cartItems := [], localStorage := fullStorageWith shoeSockCart }).localStorage =
      .ok 3 ∧
    quantitySum shoeSockCart + 2 = 5 :=
  ⟨rfl, rfl, rfl, by decide⟩

/-- C25, amended. The header count is the sum of the quantities of the persisted
cart, 0 for an empty or an absent cart. When `setItem` accepts the write, the
count computed after `add(product, q)` is the count before plus exactly `q`,
whether or not the product was in the cart. When `setItem` refuses the write,
the add raises and stores nothing, so the count stays the count before. -/
theorem C25_header_count (localStorage : LocalStorage) (cart : Cart)
    (hread : storedCart localStorage = some cart) :
    Header.updateCartCount localStorage = .ok (quantitySum cart) ∧
    Header.updateCartCount { cart := none, writable := localStorage.writable } = .ok 0 ∧
    Header.updateCartCount
      { cart := some (.items []), writable := localStorage.writable } = .ok 0 ∧
    (∀ (product : Product) (q : Int), localStorage.writable = true →
      ∃ stored, ProductDetailsPage.handleAddToCart product q localStorage = .ok stored ∧
        Header.updateCartCount stored = .ok (quantitySum cart + q)) ∧
    (∀ (product : Product) (q : Int) (cartItems : Cart), localStorage.writable = false →
      ProductDetailsPage.handleAddToCart product q localStorage = .error .quotaExceeded ∧
      Header.updateCartCount
        (step (.add product q)
          { cartItems := cartItems, localStorage := localStorage }).localStorage =
        .ok (quantitySum cart)) := by
  refine ⟨updateCartCount_stored localStorage cart hread, rfl, rfl, ?_, ?_⟩
  · intro product q hw
    refine ⟨_, handleAddToCart_ok product q localStorage cart hread hw, ?_⟩
    rw [updateCartCount_stored
        { localStorage with cart := some (.items (mergeIntoCart product q cart)) }
        (mergeIntoCart product q cart) rfl,
      quantitySum_mergeIntoCart]
  · intro product q cartItems hw
    have hraise := handleAddToCart_refused product q localStorage cart hread hw
    refine ⟨hraise, ?_⟩
    simp only [step, hraise]
    exact updateCartCount_stored localStorage cart hread

/-- Witness of the amended C25: the shoe-and-socks cart counts 3, and 5 after
adding two shoes with an accepted write. -/
theorem C25_header_count_witness :
    storedCart (storageWith shoeSockCart) = some shoeSockCart ∧
    Header.updateCartCount (storageWith shoeSockCart) = .ok 3 ∧
    (∃ stored, ProductDetailsPage.handleAddToCart shoe 2 (storageWith shoeSockCart) =
        .ok stored ∧
      Header.updateCartCount stored = .ok (quantitySum shoeSockCart + 2)) :=
  ⟨rfl, rfl, (C25_header_count (storageWith shoeSockCart) shoeSockCart rfl).2.2.2.1 shoe 2 rfl⟩

/-- C30. The case `createOrder.fulfilled` sets `loading` to false and
`currentOrder` to the created order and puts that order in front of the
previous orders, which keep their order, so that the length grows by exactly 1;
`error` is unchanged. The reducer `clearCurrentOrder` sets `currentOrder` to
null and leaves `orders`, `loading` and `error` unchanged. -/
theorem C30_order_creation_prepends {Order : Type} (state : OrderSliceState Order)
    (o : Order) :
    (orderSlice.createOrderFulfilled state o).loading = false ∧
    (orderSlice.createOrderFulfilled state o).currentOrder = some o ∧
    (orderSlice.createOrderFulfilled state o).orders = o :: state.orders ∧
    (orderSlice.createOrderFulfilled state o).orders.length = state.orders.length + 1 ∧
    (orderSlice.createOrderFulfilled state o).error = state.error ∧
    (orderSlice.clearCurrentOrder state).currentOrder = none ∧
    (orderSlice.clearCurrentOrder state).orders = state.orders ∧
    (orderSlice.clearCurrentOrder state).loading = state.loading ∧
    (orderSlice.clearCurrentOrder state).error = state.error :=
  ⟨rfl, rfl, rfl, rfl, rfl, rfl, rfl, rfl, rfl⟩

/-- C24. Async lifecycle mirroring. For `fetchCart` in `cartSlice`, for
`fetchOrders`, `createOrder` and `fetchOrderById` in `orderSlice` and for
`fetchProducts`, `fetchProductById` and `searchProducts` in `productSlice`, and
for every prior state: the pending case sets `loading` to true and `error` to
null and changes no other field; the rejected case sets `loading` to false and
`error` to the action payload and changes no other field; the fulfilled case
sets `loading` to false and leaves `error` as it was. -/
theorem C24_async_lifecycle {Order P : Type} (cartState : CartSliceState)
    (orderState : OrderSliceState Order) (productState : ProductSliceState P)
    (payload : Option String) (cartPayload : CartPayload) (orderList : List Order)
    (order : Order) (productList : List P) (product : P) :
    ((cartSlice.fetchCartPending cartState).loading = true ∧
      (cartSlice.fetchCartPending cartState).error = none ∧
      (cartSlice.fetchCartPending cartState).items = cartState.items ∧
      (cartSlice.fetchCartPending cartState).totalAmount = cartState.totalAmount ∧
      (cartSlice.fetchCartRejected cartState payload).loading = false ∧
      (cartSlice.fetchCartRejected cartState payload).error = payload ∧
      (cartSlice.fetchCartRejected cartState payload).items = cartState.items ∧
      (cartSlice.fetchCartRejected cartState payload).totalAmount = cartState.totalAmount ∧
      (cartSlice.fetchCartFulfilled cartState cartPayload).loading = false ∧
      (cartSlice.fetchCartFulfilled cartState cartPayload).error = cartState.error) ∧
    ((orderSlice.fetchOrdersPending orderState).loading = true ∧
      (orderSlice.fetchOrdersPending orderState).error = none ∧
      (orderSlice.fetchOrdersPending orderState).orders = orderState.orders ∧
      (orderSlice.fetchOrdersPending orderState).currentOrder = orderState.currentOrder ∧
      (orderSlice.fetchOrdersRejected orderState payload).loading = false ∧
      (orderSlice.fetchOrdersRejected orderState payload).error = payload ∧
      (orderSlice.fetchOrdersRejected orderState payload).orders = orderState.orders ∧
      (orderSlice.fetchOrdersRejected orderState payload).currentOrder = orderState.currentOrder ∧
      (orderSlice.fetchOrdersFulfilled orderState orderList).loading = false ∧
      (orderSlice.fetchOrdersFulfilled orderState orderList).error = orderState.error ∧
      (orderSlice.createOrderPending orderState).loading = true ∧
      (orderSlice.createOrderPending orderState).error = none ∧
      (orderSlice.createOrderPending orderState).orders = orderState.orders ∧
      (orderSlice.createOrderPending orderState).currentOrder = orderState.currentOrder ∧
      (orderSlice.createOrderRejected orderState payload).loading = false ∧
      (orderSlice.createOrderRejected orderState payload).error = payload ∧
      (orderSlice.createOrderRejected orderState payload).orders = orderState.orders ∧
      (orderSlice.createOrderRejected orderState payload).currentOrder = orderState.currentOrder ∧
      (orderSlice.createOrderFulfilled orderState order).loading = false ∧
      (orderSlice.createOrderFulfilled orderState order).error = orderState.error ∧
      (orderSlice.fetchOrderByIdPending orderState).loading = true ∧
      (orderSlice.fetchOrderByIdPending orderState).error = none ∧
      (orderSlice.fetchOrderByIdPending orderState).orders = orderState.orders ∧
      (orderSlice.fetchOrderByIdPending orderState).currentOrder = orderState.currentOrder ∧
      (orderSlice.fetchOrderByIdRejected orderState payload).loading = false ∧
      (orderSlice.fetchOrderByIdRejected orderState payload).error = payload ∧
      (orderSlice.fetchOrderByIdRejected orderState payload).orders = orderState.orders ∧
      (orderSlice.fetchOrderByIdRejected orderState payload).currentOrder = orderState.currentOrder ∧
      (orderSlice.fetchOrderByIdFulfilled orderState order).loading = false ∧
      (orderSlice.fetchOrderByIdFulfilled orderState order).error = orderState.error) ∧
    ((productSlice.fetchProductsPending productState).loading = true ∧
      (productSlice.fetchProductsPending productState).error = none ∧
      (productSlice.fetchProductsPending productState).items = productState.items ∧
      (productSlice.fetchProductsPending productState).currentProduct = productState.currentProduct ∧
      (productSlice.fetchProductsPending productState).filters = productState.filters ∧
      (productSlice.fetchProductsRejected productState payload).loading = false ∧
      (productSlice.fetchProductsRejected productState payload).error = payload ∧
      (productSlice.fetchProductsRejected productState payload).items = productState.items ∧
      (productSlice.fetchProductsRejected productState payload).currentProduct = productState.currentProduct ∧
      (productSlice.fetchProductsRejected productState payload).filters = productState.filters ∧
      (productSlice.fetchProductsFulfilled productState productList).loading = false ∧
      (productSlice.fetchProductsFulfilled productState productList).error = productState.error ∧
      (productSlice.fetchProductByIdPending productState).loading = true ∧
      (productSlice.fetchProductByIdPending productState).error = none ∧
      (productSlice.fetchProductByIdPending productState).items = productState.items ∧
      (productSlice.fetchProductByIdPending productState).currentProduct = productState.currentProduct ∧
      (productSlice.fetchProductByIdPending productState).filters = productState.filters ∧
      (productSlice.fetchProductByIdRejected productState payload).loading = false ∧
      (productSlice.fetchProductByIdRejected productState payload).error = payload ∧
      (productSlice.fetchProductByIdRejected productState payload).items = productState.items ∧
      (productSlice.fetchProductByIdRejected productState payload).currentProduct = productState.currentProduct ∧
      (productSlice.fetchProductByIdRejected productState payload).filters = productState.filters ∧
      (productSlice.fetchProductByIdFulfilled productState product).loading = false ∧
      (productSlice.fetchProductByIdFulfilled productState product).error = productState.error ∧
      (productSlice.searchProductsPending productState).loading = true ∧
      (productSlice.searchProductsPending productState).error = none ∧
      (productSlice.searchProductsPending productState).items = productState.items ∧
      (productSlice.searchProductsPending productState).currentProduct = productState.currentProduct ∧
      (productSlice.searchProductsPending productState).filters = productState.filters ∧
      (productSlice.searchProductsRejected productState payload).loading = false ∧
      (productSlice.searchProductsRejected productState payload).error = payload ∧
      (productSlice.searchProductsRejected productState payload).items = productState.items ∧
      (productSlice.searchProductsRejected productState payload).currentProduct = productState.currentProduct ∧
      (productSlice.searchProductsRejected productState payload).filters = productState.filters ∧
      (productSlice.searchProductsFulfilled productState productList).loading = false ∧
      (productSlice.searchProductsFulfilled productState productList).error = productState.error) :=
  ⟨cartSlice_lifecycle cartState payload cartPayload,
   orderSlice_lifecycle orderState payload orderList order,
   productSlice_lifecycle productState payload productList product⟩

/-- C26. Each quick reply reaches its own topic: when `toLowerCase` lower-cases
the five quick replies as written, `getBotResponse` answers `Track my order`
with the order tracking answer, `Shipping info` with the shipping answer,
`Return policy` with the return answer, `Payment methods` with the payment
answer and `Contact support` with the contact answer. The thirteen answers are
pairwise different, so none of the five is the default answer or the answer
of an earlier rule. -/
theorem C26_quick_replies (toLowerCase : String → String)
    (htrack : toLowerCase "Track my order" = "track my order")
    (hship : toLowerCase "Shipping info" = "shipping info")
    (hreturn : toLowerCase "Return policy" = "return policy")
    (hpay : toLowerCase "Payment methods" = "payment methods")
    (hcontact : toLowerCase "Contact support" = "contact support") :
    Chatbot.getBotResponse toLowerCase "Track my order" = Chatbot.trackingAnswer ∧
    Chatbot.getBotResponse toLowerCase "Shipping info" = Chatbot.shippingAnswer ∧
    Chatbot.getBotResponse toLowerCase "Return policy" = Chatbot.returnAnswer ∧
    Chatbot.getBotResponse toLowerCase "Payment methods" = Chatbot.paymentAnswer ∧
    Chatbot.getBotResponse toLowerCase "Contact support" = Chatbot.contactAnswer ∧
    [Chatbot.productAnswer, Chatbot.shippingAnswer, Chatbot.paymentAnswer,
      Chatbot.returnAnswer, Chatbot.trackingAnswer, Chatbot.accountAnswer,
      Chatbot.cartAnswer, Chatbot.contactAnswer, Chatbot.discountAnswer,
      Chatbot.priceAnswer, Chatbot.greetingAnswer, Chatbot.thanksAnswer,
      Chatbot.defaultAnswer].Nodup ∧
    (∀ reply ∈ Chatbot.quickReplies,
      Chatbot.getBotResponse toLowerCase reply ≠ Chatbot.defaultAnswer) := by
  have h1 : Chatbot.getBotResponse toLowerCase "Track my order" = Chatbot.trackingAnswer := by
    rw [getBotResponse_eq_firstMatch, htrack]
    rfl
  have h2 : Chatbot.getBotResponse toLowerCase "Shipping info" = Chatbot.shippingAnswer := by
    rw [getBotResponse_eq_firstMatch, hship]
    rfl
  have h3 : Chatbot.getBotResponse toLowerCase "Return policy" = Chatbot.returnAnswer := by
    rw [getBotResponse_eq_firstMatch, hreturn]
    rfl
  have h4 : Chatbot.getBotResponse toLowerCase "Payment methods" = Chatbot.paymentAnswer := by
    rw [getBotResponse_eq_firstMatch, hpay]
    rfl
  have h5 : Chatbot.getBotResponse toLowerCase "Contact support" = Chatbot.contactAnswer := by
    rw [getBotResponse_eq_firstMatch, hcontact]
    rfl
  refine ⟨h1, h2, h3, h4, h5, by decide, ?_⟩
  intro reply hreply
  simp only [Chatbot.quickReplies, List.mem_cons, List.mem_singleton, List.not_mem_nil,
    or_false] at hreply
  rcases hreply with rfl | rfl | rfl | rfl | rfl
  · rw [h1]
    decide
  · rw [h2]
    decide
  · rw [h3]
    decide
  · rw [h4]
    decide
  · rw [h5]
    decide

/-- Witness of C26 with the lower-casing of ASCII letters. -/
theorem C26_quick_replies_witness :
    asciiLowerCase "Track my order" = "track my order" ∧
    asciiLowerCase "Shipping info" = "shipping info" ∧
    asciiLowerCase "Return policy" = "return policy" ∧
    asciiLowerCase "Payment methods" = "payment methods" ∧
    asciiLowerCase "Contact support" = "contact support" ∧
    Chatbot.getBotResponse asciiLowerCase "Track my order" = Chatbot.trackingAnswer ∧
    Chatbot.getBotResponse asciiLowerCase "Contact support" = Chatbot.contactAnswer :=
  ⟨by decide, by decide, by decide, by decide, by decide,
   (C26_quick_replies asciiLowerCase (by decide) (by decide) (by decide) (by decide)
      (by decide)).1,
   (C26_quick_replies asciiLowerCase (by decide) (by decide) (by decide) (by decide)
      (by decide)).2.2.2.2.1⟩

/-- C27. `getBotResponse` is a first-match, case-insensitive rule list. For a
`toLowerCase` that leaves lower-cased text as it is, and every message: the
answer to the message is the answer to the lower-cased message; it is the
answer of the first rule of the table, in source order, one of whose keywords is
a substring of the lower-cased message; and it is the default answer if and
only if no keyword of any rule is a substring of the lower-cased message. -/
theorem C27_first_match_rules (toLowerCase : String → String)
    (hidem : ∀ text, toLowerCase (toLowerCase text) = toLowerCase text) (m : String) :
    Chatbot.getBotResponse toLowerCase m =
      Chatbot.getBotResponse toLowerCase (toLowerCase m) ∧
    Chatbot.getBotResponse toLowerCase m =
      Chatbot.firstMatch Chatbot.rules Chatbot.defaultAnswer (toLowerCase m) ∧
    (∀ before keywords answer after,
      Chatbot.rules = before ++ (keywords, answer) :: after →
      (∀ rule ∈ before, ∀ keyword ∈ rule.1, ¬ Contains (toLowerCase m) keyword) →
      (∃ keyword ∈ keywords, Contains (toLowerCase m) keyword) →
      Chatbot.getBotResponse toLowerCase m = answer) ∧
    (Chatbot.getBotResponse toLowerCase m = Chatbot.defaultAnswer ↔
      ∀ rule ∈ Chatbot.rules, ∀ keyword ∈ rule.1, ¬ Contains (toLowerCase m) keyword) := by
  refine ⟨?_, getBotResponse_eq_firstMatch toLowerCase m, ?_, ?_⟩
  · rw [getBotResponse_eq_firstMatch, getBotResponse_eq_firstMatch, hidem]
  · intro before keywords answer after hsplit hbefore hhit
    rw [getBotResponse_eq_firstMatch, hsplit]
    apply firstMatch_split
    · intro rule hrule keyword hk
      have := hbefore rule hrule keyword hk
      rw [← includes_iff] at this
      simpa using this
    · obtain ⟨keyword, hk, hc⟩ := hhit
      exact ⟨keyword, hk, (includes_iff _ _).mpr hc⟩
  · rw [getBotResponse_eq_firstMatch,
      firstMatch_eq_fallback_iff Chatbot.rules Chatbot.defaultAnswer (toLowerCase m)
        rules_answers_ne_default]
    constructor
    · intro h rule hrule keyword hk hc
      have := h rule hrule keyword hk
      rw [(includes_iff _ _).mpr hc] at this
      cases this
    · intro h rule hrule keyword hk
      have := h rule hrule keyword hk
      rw [← includes_iff] at this
      simpa using this

/-- Witness of C27 with the lower-casing of ASCII letters: `HELP me` and
`help me` get the same answer. -/
theorem C27_first_match_rules_witness :
    (∀ text, asciiLowerCase (asciiLowerCase text) = asciiLowerCase text) ∧
    Chatbot.getBotResponse asciiLowerCase "HELP me" =
      Chatbot.getBotResponse asciiLowerCase (asciiLowerCase "HELP me") :=
  ⟨asciiLowerCase_idem, (C27_first_match_rules asciiLowerCase asciiLowerCase_idem "HELP me").1⟩

/-- C28. The chat send step. When `inputMessage` is empty or white space only,
`handleSendMessage` leaves `messages` and `inputMessage` as they are and
schedules nothing, and `handleQuickReply(reply)`, which sends the value held
before the click, appends no message and only sets `inputMessage` to `reply`.
Otherwise `handleSendMessage` appends the user message with that text, clears
`inputMessage` and schedules the reply; when nothing else is pending, the reply
timeout then appends the bot message `getBotResponse(inputMessage)`; and
`handleQuickReply(reply)` sends that same earlier text, not `reply`. -/
theorem C28_chat_send (toLowerCase : String → String) (chat : Chatbot) (reply : String) :
    (trimIsEmpty chat.inputMessage = true ↔
      ∀ c ∈ chat.inputMessage.data, isJsWhiteSpace c = true) ∧
    (trimIsEmpty chat.inputMessage = true →
      Chatbot.handleSendMessage chat.inputMessage chat = chat ∧
      Chatbot.handleQuickReply chat.inputMessage reply chat =
        { chat with inputMessage := reply }) ∧
    (trimIsEmpty chat.inputMessage = false →
      Chatbot.handleSendMessage chat.inputMessage chat =
        { messages := chat.messages ++ [{ text := chat.inputMessage, sender := .user }],
          inputMessage := "",
          pendingReplies := chat.pendingReplies ++ [chat.inputMessage] } ∧
      (chat.pendingReplies = [] →
        Chatbot.replyTimeout toLowerCase
            (Chatbot.handleSendMessage chat.inputMessage chat) =
          { messages := chat.messages ++
              [{ text := chat.inputMessage, sender := .user },
               { text := Chatbot.getBotResponse toLowerCase chat.inputMessage,
                 sender := .bot }],
            inputMessage := "",
            pendingReplies := [] }) ∧
      Chatbot.handleQuickReply chat.inputMessage reply chat =
        Chatbot.handleSendMessage chat.inputMessage chat) := by
  refine ⟨?_, ?_, ?_⟩
  · simp [trimIsEmpty, List.all_eq_true]
  · intro hblank
    simp [Chatbot.handleSendMessage, Chatbot.handleQuickReply, hblank]
  · intro htext
    refine ⟨by simp [Chatbot.handleSendMessage, htext], ?_, by
      simp [Chatbot.handleSendMessage, Chatbot.handleQuickReply, htext]⟩
    intro hpending
    simp [Chatbot.handleSendMessage, Chatbot.replyTimeout, htext, hpending]

/-- Witness of C28: with two blanks typed, the quick reply `Shipping info` only
fills the input; with `hello` typed, the same click sends `hello`. -/
theorem C28_chat_send_witness :
    trimIsEmpty typedBlanks.inputMessage = true ∧
    Chatbot.handleQuickReply typedBlanks.inputMessage "Shipping info" typedBlanks =
      { typedBlanks with inputMessage := "Shipping info" } ∧
    trimIsEmpty typedHello.inputMessage = false ∧
    Chatbot.handleQuickReply typedHello.inputMessage "Shipping info" typedHello =
      Chatbot.handleSendMessage typedHello.inputMessage typedHello :=
  ⟨by decide,
   ((C28_chat_send asciiLowerCase typedBlanks "Shipping info").2.1 (by decide)).2,
   by decide,
   ((C28_chat_send asciiLowerCase typedHello "Shipping info").2.2 (by decide)).2.2⟩

/-- C29. The product list filter. `filteredProducts` is `products` filtered by a
test that holds exactly when the lower-cased name, or the lower-cased
description when there is one, contains the lower-cased search term, and the
selected category is `All` or is the category of the product; so it is an
order-preserving sublist with exactly those products. When `toLowerCase` keeps
the empty text, an empty search term with category `All`, which is also what
missing URL parameters give, yields the full list, products without a
description included. -/
theorem C29_product_filter (toLowerCase : String → String) (products : List ListedProduct)
    (searchTerm selectedCategory : String) :
    (∃ keep : ListedProduct → Bool,
      (∀ product, keep product = true ↔
        (Contains (toLowerCase product.name) (toLowerCase searchTerm) ∨
          ∃ description, product.description = some description ∧
            Contains (toLowerCase description) (toLowerCase searchTerm)) ∧
        (selectedCategory = "All" ∨ product.category = some selectedCategory)) ∧
      ProductListPage.filteredProducts toLowerCase products searchTerm selectedCategory =
        products.filter keep) ∧
    List.Sublist
      (ProductListPage.filteredProducts toLowerCase products searchTerm selectedCategory)
      products ∧
    (∀ product,
      product ∈ ProductListPage.filteredProducts toLowerCase products searchTerm
          selectedCategory ↔
        product ∈ products ∧
        (Contains (toLowerCase product.name) (toLowerCase searchTerm) ∨
          ∃ description, product.description = some description ∧
            Contains (toLowerCase description) (toLowerCase searchTerm)) ∧
        (selectedCategory = "All" ∨ product.category = some selectedCategory)) ∧
    (toLowerCase "" = "" →
      ProductListPage.filteredProducts toLowerCase products "" "All" = products ∧
      ProductListPage.filteredProducts toLowerCase products
        (ProductListPage.searchTerm none) (ProductListPage.selectedCategory none) =
        products) := by
  have hkeep : ∀ product : ListedProduct,
      ((includes (toLowerCase product.name) (toLowerCase searchTerm) ||
          (match product.description with
            | some description => includes (toLowerCase description) (toLowerCase searchTerm)
            | none => false)) &&
        (selectedCategory == "All" || product.category == some selectedCategory)) = true ↔
      (Contains (toLowerCase product.name) (toLowerCase searchTerm) ∨
          ∃ description, product.description = some description ∧
            Contains (toLowerCase description) (toLowerCase searchTerm)) ∧
        (selectedCategory = "All" ∨ product.category = some selectedCategory) := by
    intro product
    cases hdesc : product.description with
    | none => simp [includes_iff]
    | some description => simp [includes_iff]
  refine ⟨⟨_, hkeep, rfl⟩, List.filter_sublist _, ?_, ?_⟩
  · intro product
    unfold ProductListPage.filteredProducts
    rw [List.mem_filter]
    exact and_congr_right (fun _ => hkeep product)
  · intro hempty
    have hall : ProductListPage.filteredProducts toLowerCase products "" "All" = products := by
      unfold ProductListPage.filteredProducts
      rw [List.filter_eq_self]
      intro product _
      simp [hempty, includes_empty]
    exact ⟨hall, hall⟩

/-- Witness of C29 with the lower-casing of ASCII letters: the term `BLUE` keeps
the shirt by its name and the phone by its description; the category
`Electronics` keeps the phone only; no term and `All` keep both. -/
theorem C29_product_filter_witness :
    asciiLowerCase "" = "" ∧
    ProductListPage.filteredProducts asciiLowerCase listedSample "" "All" = listedSample ∧
    (ProductListPage.filteredProducts asciiLowerCase listedSample "BLUE" "All").map
      (fun product => product.name) = ["Blue Shirt", "Phone"] ∧
    (ProductListPage.filteredProducts asciiLowerCase listedSample "BLUE" "Electronics").map
      (fun product => product.name) = ["Phone"] :=
  ⟨by decide,
   ((C29_product_filter asciiLowerCase listedSample "" "All").2.2.2 (by decide)).1,
   by decide, by decide⟩

end SmartShop
